import Mathlib

/-!
Verification of the sentri-retail-demo message-routing and decision core.

Shallow embedding of:
* `app/tools/risk_link.py`, `risk_email.py`, `risk_logs.py` (risk scanners),
* `app/agent_gateway/intent_router.py` (intent classification),
* `app/agent_gateway/memory_manager.py` (conversation memory),
* `app/agent_gateway/response_builder.py` (response construction),
* `app/agent_gateway/gateway.py` (orchestrator),
* `app/llm/llm_router.py` and `app/llm/local_llm.py` (provider fallback chain).

Python strings are modelled as `List Char` (ASCII-faithful: `str.lower` is
`Char.toLower`, which matches Python on ASCII input).  Python regular
expressions are modelled by a small total regex engine (`RE`, below) with
existence semantics for `re.search` / `re.match` and leftmost-longest
extraction for `re.findall` (which coincides with Python's leftmost-greedy
behaviour on the simple character-class patterns the code uses).  Python
`int` is `Int`.  Python `float` confidences (all exact
decimal literals) are modelled in hundredths (`95` stands for `0.95`).
Wall-clock timestamp fields (`datetime.utcnow()`) are omitted: they are
external I/O and no claim mentions them.
-/

/-- `chars s` is the character list of a string literal (Python str). -/
def chars (s : String) : List Char := s.data

/-- Python `str.lower()` restricted to ASCII. -/
def lowerStr (s : List Char) : List Char := s.map Char.toLower

/-- Python whitespace class `\s` over ASCII. -/
def isPySpace (c : Char) : Bool :=
  c = ' ' || c = '\t' || c = '\n' || c = '\r' || c = Char.ofNat 11 || c = Char.ofNat 12

/-- Regex word character `\w` = `[a-zA-Z0-9_]`. -/
def isWordChar (c : Char) : Bool := c.isAlphanum || c = '_'

/-- Python `needle in hay` substring test. -/
def containsSub (needle hay : List Char) : Bool :=
  (List.range (hay.length + 1)).any (fun i => List.isPrefixOf needle (hay.drop i))

/-- Python `hay.startswith(needle)`. -/
def startsWith (needle hay : List Char) : Bool := List.isPrefixOf needle hay

/-- Python `hay.endswith(needle)`. -/
def endsWith (needle hay : List Char) : Bool := List.isSuffixOf needle hay

/-- Python `s.count(c)` for a single character. -/
def countChar (c : Char) (s : List Char) : Int := (s.filter (· = c)).length

/-- Python `s.strip()` (ASCII whitespace). -/
def stripStr (s : List Char) : List Char :=
  ((s.dropWhile isPySpace).reverse.dropWhile isPySpace).reverse

/-- Python `s.split(c)` for a single-character separator. -/
def splitOnChar (c : Char) (s : List Char) : List (List Char) :=
  s.foldr (fun ch acc =>
    match acc with
    | [] => if ch = c then [[], []] else [[ch]]
    | g :: gs => if ch = c then [] :: (g :: gs) else (ch :: g) :: gs) [[]]

/-!
## A total regex engine

`RE` is the abstract syntax of the regular expressions the source uses:
character predicates, concatenation, alternation, Kleene star and zero-width
lookaround assertions (`^`, `$`, `\b`).  `ends s r i` computes every position
`j` such that `r` matches `s[i..j)`; the star case iterates a reachability
step `s.length + 1` times, which closes the (at most `s.length + 1`-element)
set of positions.
-/

inductive RE where
  | eps : RE
  | pred : (Char → Bool) → RE
  | seq : RE → RE → RE
  | alt : RE → RE → RE
  | star : RE → RE
  | look : (List Char → Nat → Bool) → RE

/-- Add a position to a set of positions (as a duplicate-free list). -/
def addPos (ac : List Nat) (k : Nat) : List Nat :=
  if ac.contains k then ac else ac ++ [k]

/-- Union of position sets. -/
def unionPos (a b : List Nat) : List Nat := b.foldl addPos a

/-- All end positions of matches of `r` starting at position `i` of `s`. -/
def ends (s : List Char) : RE → Nat → List Nat
  | .eps, i => [i]
  | .pred p, i =>
    match s.get? i with
    | some c => if p c then [i + 1] else []
    | none => []
  | .look f, i => if f s i then [i] else []
  | .alt a b, i => unionPos (ends s a i) (ends s b i)
  | .seq a b, i => (ends s a i).foldl (fun ac j => unionPos ac (ends s b j)) []
  | .star a, i =>
    (List.range (s.length + 1)).foldl
      (fun acc _ => acc.foldl (fun ac j => unionPos ac (ends s a j)) acc) [i]

/-- `re.search(r, s) is not None`. -/
def reSearch (r : RE) (s : List Char) : Bool :=
  (List.range (s.length + 1)).any (fun i => !(ends s r i).isEmpty)

/-- `re.match(r, s) is not None` (anchored at position 0). -/
def reMatchStart (r : RE) (s : List Char) : Bool := !(ends s r 0).isEmpty

/-- Largest end position of a match of `r` at `i`, if any. -/
def maxEnd (r : RE) (s : List Char) (i : Nat) : Option Nat :=
  (ends s r i).foldl (fun m j =>
    match m with
    | none => some j
    | some k => some (max k j)) none

/-- Regex combinators used to transcribe the source patterns. -/
def lit (w : String) : RE :=
  (w.data.map (fun c => RE.pred (fun d => d = c))).foldr RE.seq RE.eps

/-- Case-blind character literal is unnecessary: searches lowercase input. -/
def orRE (l : List RE) : RE :=
  match l with
  | [] => RE.pred (fun _ => false)
  | r :: rs => rs.foldl RE.alt r

def orLits (ws : List String) : RE := orRE (ws.map lit)

/-- `r?` -/
def optRE (r : RE) : RE := RE.alt RE.eps r

/-- `r+` -/
def plusRE (r : RE) : RE := RE.seq r (RE.star r)

/-- `r{n}` -/
def repRE (n : Nat) (r : RE) : RE := (List.replicate n r).foldr RE.seq RE.eps

/-- `r{1,n}` -/
def rep1To (n : Nat) (r : RE) : RE :=
  RE.seq r ((List.replicate (n - 1) (optRE r)).foldr RE.seq RE.eps)

/-- `r{n,}` -/
def repAtLeast (n : Nat) (r : RE) : RE := RE.seq (repRE n r) (RE.star r)

/-- `.` (any character except newline, no DOTALL). -/
def dotRE : RE := RE.pred (fun c => c ≠ '\n')

/-- `.*` -/
def dotStar : RE := RE.star dotRE

/-- `\d` -/
def digitRE : RE := RE.pred Char.isDigit

/-- `\s` -/
def wsRE : RE := RE.pred isPySpace

/-- `\s*` -/
def wsStar : RE := RE.star wsRE

/-- `\s+` -/
def wsPlus : RE := plusRE wsRE

/-- `\S` -/
def nonWsRE : RE := RE.pred (fun c => !isPySpace c)

/-- character class from an explicit list -/
def clsRE (cs : List Char) : RE := RE.pred (fun c => cs.contains c)

/-- negated character class -/
def nclsRE (cs : List Char) : RE := RE.pred (fun c => !cs.contains c)

/-- `[a-z]`-style range class -/
def rngRE (lo hi : Char) : RE := RE.pred (fun c => lo ≤ c && c ≤ hi)

/-- `\b` word boundary assertion. -/
def wbRE : RE :=
  RE.look (fun s i =>
    let before := match s.get? (i - 1) with
      | some c => i ≠ 0 && isWordChar c
      | none => false
    let after := match s.get? i with
      | some c => isWordChar c
      | none => false
    before ≠ after)

/-- `^` (no MULTILINE: start of string only). -/
def bolRE : RE := RE.look (fun _ i => i = 0)

/-- `$` (end of string, or just before a final newline). -/
def eolRE : RE :=
  RE.look (fun s i => i = s.length || (i + 1 = s.length && s.get? i = some '\n'))

/-- `seq` of a list of regexes. -/
def seqRE (l : List RE) : RE := l.foldr RE.seq RE.eps

/-- Whole-match test: `re.match(r'^pat$', s)` style full match. -/
def reFullMatch (r : RE) (s : List Char) : Bool := (ends s r 0).contains s.length

/-- Leftmost-longest extraction of all non-overlapping matches of a priority
list of alternatives (`re.findall` for an alternation pattern: at each
position the first alternative that matches is taken, with its longest
extent; matching continues after the match). -/
def findAllAlts (alts : List RE) (s : List Char) : List (List Char) :=
  go (s.length + 1) 0
where
  go : Nat → Nat → List (List Char)
  | 0, _ => []
  | f + 1, i =>
    if i > s.length then []
    else
      match alts.findSome? (fun r => maxEnd r s i) with
      | some j =>
        if j > i then ((s.drop i).take (j - i)) :: go f j
        else go f (i + 1)
      | none => go f (i + 1)

/-- Leftmost match of `r` in `s` with its longest extent (stands for Python's
leftmost-greedy `re.search(...).group()` on the patterns used here). -/
def firstMatchSub (r : RE) (s : List Char) : Option (List Char) :=
  match (List.range (s.length + 1)).find? (fun i => !(ends s r i).isEmpty) with
  | some i =>
    match maxEnd r s i with
    | some j => some ((s.drop i).take (j - i))
    | none => none
  | none => none

/-- `risk_score += k` guarded by a condition (`if cond: risk_score += k`). -/
def addIf (b : Bool) (k s : Int) : Int := if b then s + k else s

/-!
## LinkScanner (`app/tools/risk_link.py`)
-/

namespace LinkScanner

def SUSPICIOUS_TLDS : List (List Char) :=
  [chars ".xyz", chars ".tk", chars ".ml", chars ".ga", chars ".cf",
   chars ".gq", chars ".top", chars ".buzz", chars ".club"]

/-- `[0-9]{1,3}\.[0-9]{1,3}\.[0-9]{1,3}\.[0-9]{1,3}` (also `\d{1,3}\....`
in check 5: `\d` and `[0-9]` denote the same class). -/
def ipv4LooseRE : RE :=
  seqRE [rep1To 3 digitRE, lit ".", rep1To 3 digitRE, lit ".",
         rep1To 3 digitRE, lit ".", rep1To 3 digitRE]

/-- `PHISHING_PATTERNS`, searched case-insensitively (input lowered). -/
def PHISHING_PATTERNS : List RE :=
  [seqRE [orLits ["login", "signin", "verify", "account", "secure", "update", "confirm"], lit "."],
   seqRE [lit ".", orLits ["com", "net", "org"], lit "-", plusRE (rngRE 'a' 'z'), lit "."],
   seqRE [orLits ["paypal", "amazon", "google", "microsoft", "apple", "netflix", "bank"],
          dotStar, lit ".", orLits ["xyz", "tk", "ml"]],
   ipv4LooseRE,
   orLits ["free", "win", "gift", "prize", "claim", "urgent", "limited"]]

def TRUSTED_DOMAINS : List (List Char) :=
  [chars "google.com", chars "microsoft.com", chars "apple.com", chars "amazon.com",
   chars "github.com", chars "linkedin.com", chars "facebook.com", chars "twitter.com",
   chars "youtube.com", chars "netflix.com", chars "paypal.com", chars "stripe.com"]

def BRAND_TYPOS : List (String × List String) :=
  [("google", ["g00gle", "googel", "gogle", "googIe"]),
   ("paypal", ["paypai", "paypa1", "paypol", "paypall"]),
   ("amazon", ["amaz0n", "amazom", "arnazon", "amazonn"]),
   ("microsoft", ["micros0ft", "mircosoft", "microsft"]),
   ("apple", ["appIe", "app1e", "aple"])]

def suspicious_path_keywords : List (List Char) :=
  [chars "login", chars "verify", chars "secure", chars "account",
   chars "update", chars "confirm", chars "password"]

/-- `_check_typosquatting`: first brand one of whose typo spellings occurs in
the (lowercased) domain. -/
def check_typosquatting (domain : List Char) : Option String :=
  BRAND_TYPOS.findSome? (fun bt =>
    if (bt.2).any (fun typo => containsSub (chars typo) domain) then some bt.1 else none)

/-- `_calculate_risk_level`. -/
def calculate_risk_level (score : Int) : String :=
  if score ≥ 70 then "CRITICAL"
  else if score ≥ 50 then "HIGH"
  else if score ≥ 30 then "MEDIUM"
  else if score > 0 then "LOW"
  else "SAFE"

/-- `_generate_verdict` (the `signals` argument is unused by the source body). -/
def generate_verdict (risk_level : String) (_signals : List String) : String :=
  if risk_level = "CRITICAL" then "DANGEROUS - Do NOT visit this URL"
  else if risk_level = "HIGH" then "SUSPICIOUS - High risk of phishing/malware"
  else if risk_level = "MEDIUM" then "CAUTION - Some concerning indicators detected"
  else if risk_level = "LOW" then "MINOR CONCERNS - Proceed with caution"
  else if risk_level = "SAFE" then "APPEARS SAFE - No major threats detected"
  else "Unable to assess"

/-- `_get_recommended_action`. -/
def get_recommended_action (risk_level : String) : String :=
  if risk_level = "CRITICAL" then "Do NOT click or visit. Report as phishing."
  else if risk_level = "HIGH" then "Avoid visiting. Verify through official channels."
  else if risk_level = "MEDIUM" then "Exercise caution. Verify the sender if received via message."
  else if risk_level = "LOW" then "Safe to visit but stay alert for suspicious activity."
  else if risk_level = "SAFE" then "No action needed - URL appears legitimate."
  else "Proceed with caution"

/-- Check 8: the first trusted domain equal to, or a parent domain of, the
given (lowercased) domain. -/
def trusted_hit (domain : List Char) : Option (List Char) :=
  TRUSTED_DOMAINS.find? (fun t => domain = t || endsWith ('.' :: t) domain)

/-- URL normalization at the top of `scan`: prepend `http://` unless the
input already starts with `http://` or `https://` (case-sensitive). -/
def normalizeUrl (url : List Char) : List Char :=
  if startsWith (chars "http://") url || startsWith (chars "https://") url then url
  else chars "http://" ++ url

/-- `urlparse(url).netloc` for a URL that starts with `http://` or
`https://`: the text between the scheme separator and the first `/`, `?`
or `#`. -/
def netlocOf (url : List Char) : List Char :=
  let rest := if startsWith (chars "https://") url then url.drop 8 else url.drop 7
  rest.takeWhile (fun c => c ≠ '/' && c ≠ '?' && c ≠ '#')

/-- First index `≥ start` holding `c`. -/
def findIdxFrom (c : Char) (p : List Char) (start : Nat) : Option Nat :=
  (List.range p.length).find? (fun i => decide (i ≥ start) && p.get? i = some c)

/-- Last index holding `c`. -/
def lastIdxOf (c : Char) (p : List Char) : Option Nat :=
  ((List.range p.length).filter (fun i => p.get? i = some c)).getLast?

/-- `urlparse` parameter splitting (`_splitparams`): for an `http` URL whose
path contains `;`, the params after the `;` in the last `/`-segment are not
part of `.path`. -/
def splitParamsPath (p : List Char) : List Char :=
  if p.contains ';' then
    match lastIdxOf '/' p with
    | some k =>
      match findIdxFrom ';' p k with
      | some i => p.take i
      | none => p
    | none =>
      match findIdxFrom ';' p 0 with
      | some i => p.take i
      | none => p
  else p

/-- `urlparse(url).path` for a URL that starts with `http://` or `https://`. -/
def pathOf (url : List Char) : List Char :=
  let rest := if startsWith (chars "https://") url then url.drop 8 else url.drop 7
  let afterNetloc := rest.dropWhile (fun c => c ≠ '/' && c ≠ '?' && c ≠ '#')
  splitParamsPath (afterNetloc.takeWhile (fun c => c ≠ '?' && c ≠ '#'))

structure LinkScanResult where
  url : List Char
  risk_score : Int
  risk_level : String
  verdict : String
  signals : List String
  recommended_action : String
  deriving DecidableEq, Repr

/-- The reachable `urlparse` `ValueError` (`Invalid IPv6 URL`): the netloc
holds a `[` without a `]`, or a `]` without a `[`. -/
def parse_raises (netloc : List Char) : Bool :=
  (netloc.contains '[' && !netloc.contains ']') ||
  (netloc.contains ']' && !netloc.contains '[')

/-- `LinkScanner.scan` (pure: the `async` wrapper and logging carry no data
flow).  `urlparse` raising - reachable, for an unbalanced bracket in the
netloc - is caught by the in-scan `except`: checks 1-8 are skipped and
only the +20 "URL parsing error" signal remains. -/
def scan (url0 : List Char) : LinkScanResult :=
  let url := normalizeUrl url0
  if parse_raises (netlocOf url) then
    let risk_level := calculate_risk_level 20
    { url := url
      risk_score := min 100 20
      risk_level := risk_level
      verdict := generate_verdict risk_level ["URL parsing error"]
      signals := ["URL parsing error"]
      recommended_action := get_recommended_action risk_level }
  else
  let domain := lowerStr (netlocOf url)
  let path := lowerStr (pathOf url)
  let c1 := !(startsWith (chars "https://") url)
  let c2 := SUSPICIOUS_TLDS.find? (fun tld => endsWith tld domain)
  let c3 := PHISHING_PATTERNS.any (fun p => reSearch p (lowerStr url))
  let c4 := check_typosquatting domain
  let c5 := reMatchStart ipv4LooseRE domain
  let c6 := suspicious_path_keywords.find? (fun k => containsSub k path)
  let subdomain_count : Int := countChar '.' domain - 1
  let c7 := subdomain_count > 2
  let c8 := trusted_hit domain
  let s1 := addIf c1 15 0
  let s2 := addIf c2.isSome 25 s1
  let s3 := addIf c3 30 s2
  let s4 := addIf c4.isSome 40 s3
  let s5 := addIf c5 35 s4
  let s6 := addIf c6.isSome 10 s5
  let s7 := addIf c7 15 s6
  let s8 := if c8.isSome then max 0 (s7 - 30) else s7
  let signals :=
    (if c1 then ["No HTTPS (unencrypted connection)"] else [])
    ++ (match c2 with
        | some tld => ["Suspicious TLD: " ++ String.mk tld]
        | none => [])
    ++ (if c3 then ["Phishing pattern detected"] else [])
    ++ (match c4 with
        | some brand => ["Possible typosquatting of: " ++ brand]
        | none => [])
    ++ (if c5 then ["IP address used as domain"] else [])
    ++ (match c6 with
        | some k => ["Suspicious keyword in path: " ++ String.mk k]
        | none => [])
    ++ (if c7 then ["Excessive subdomains (" ++ toString subdomain_count ++ ")"] else [])
    ++ (match c8 with
        | some t => ["Trusted domain: " ++ String.mk t]
        | none => [])
  let risk_level := calculate_risk_level s8
  { url := url
    risk_score := min 100 s8
    risk_level := risk_level
    verdict := generate_verdict risk_level signals
    signals := signals
    recommended_action := get_recommended_action risk_level }

end LinkScanner

/-!
## EmailScanner (`app/tools/risk_email.py`)
-/

namespace EmailScanner

/-- `PHISHING_PHRASES` (searched on the lowercased content, so the
transcription is lowercase). -/
def PHISHING_PHRASES : List RE :=
  [seqRE [lit "urgent", wsStar, orLits ["action", "response", "attention"]],
   seqRE [lit "immediate", wsStar, orLits ["action", "response"]],
   seqRE [lit "act", wsStar, lit "now"],
   seqRE [lit "limited", wsStar, lit "time"],
   seqRE [lit "expire", optRE (lit "s"), wsStar, orLits ["today", "soon", "immediately"]],
   seqRE [lit "your", wsStar, lit "account", wsStar, lit "will", wsStar, lit "be", wsStar,
          orLits ["suspended", "closed", "locked"]],
   seqRE [lit "security", wsStar, lit "department"],
   seqRE [lit "technical", wsStar, lit "support"],
   seqRE [lit "account", wsStar, lit "verification"],
   seqRE [lit "verify", wsStar, lit "your", wsStar, orLits ["account", "identity", "email"]],
   seqRE [lit "unusual", wsStar, orLits ["activity", "login", "access"]],
   seqRE [lit "unauthorized", wsStar, orLits ["access", "login", "activity"]],
   seqRE [lit "suspicious", wsStar, orLits ["activity", "login"]],
   seqRE [lit "your", wsStar, lit "account", wsStar, lit "has", wsStar, lit "been", wsStar,
          lit "compromised"],
   seqRE [lit "click", wsStar, orRE [lit "here", seqRE [lit "the", wsStar, lit "link"], lit "below"]],
   seqRE [lit "update", wsStar, lit "your", wsStar, orLits ["information", "password", "details"]],
   seqRE [lit "confirm", wsStar, lit "your", wsStar, orLits ["identity", "account"]],
   seqRE [lit "reset", wsStar, lit "your", wsStar, lit "password"],
   seqRE [orLits ["won", "winner", "selected"], wsStar, orLits ["prize", "lottery", "reward"]],
   seqRE [lit "claim", wsStar, lit "your", wsStar, orLits ["prize", "reward", "gift"]],
   seqRE [lit "congratulations", dotStar, lit "$", plusRE (RE.alt digitRE (lit ","))],
   seqRE [lit "wire", wsStar, lit "transfer"],
   seqRE [lit "bank", wsStar, lit "account", wsStar, lit "details"],
   seqRE [lit "payment", wsStar, lit "failed"],
   seqRE [lit "invoice", wsStar, lit "attached"]]

def SOCIAL_ENGINEERING_KEYWORDS : List (List Char) :=
  [chars "dear valued customer", chars "dear user", chars "dear sir/madam",
   chars "dear account holder", chars "your recent transaction", chars "we have noticed",
   chars "we have detected", chars "as a security measure", chars "failure to comply",
   chars "within 24 hours", chars "within 48 hours"]

/-- `[^\s<>"{}|\\^`\[\]]` (URL body class; bracket characters written by
code point). -/
def urlCharRE : RE :=
  RE.pred (fun c => !isPySpace c &&
    !([Char.ofNat 60, Char.ofNat 62, Char.ofNat 34, Char.ofNat 123, Char.ofNat 125,
       Char.ofNat 124, Char.ofNat 92, Char.ofNat 94, Char.ofNat 96, Char.ofNat 91,
       Char.ofNat 93].contains c))

/-- `https?://[^\s<>"{}|\\^`\[\]]+` -/
def urlRE : RE := seqRE [lit "http", optRE (lit "s"), lit "://", plusRE urlCharRE]

def urgency_patterns : List RE :=
  [seqRE [lit "!", wsStar, plusRE (lit "!")],
   orLits ["urgent", "important", "critical", "alert"],
   seqRE [lit "within", wsStar, plusRE digitRE, wsStar, orLits ["hour", "day"]]]

def attachment_patterns : List RE :=
  [seqRE [lit "attached", wsStar, orLits ["file", "document", "invoice"]],
   seqRE [lit "see", wsStar, lit "attach"],
   seqRE [lit ".zip", wbRE],
   seqRE [lit ".exe", wbRE],
   seqRE [lit ".scr", wbRE]]

def sensitive_patterns : List RE :=
  [orRE [lit "password", lit "ssn", seqRE [lit "social", wsStar, lit "security"],
         seqRE [lit "credit", wsStar, lit "card"]],
   orRE [seqRE [lit "bank", wsStar, lit "account"], seqRE [lit "routing", wsStar, lit "number"]],
   orRE [seqRE [lit "login", wsStar, lit "credentials"],
         seqRE [lit "username", wsStar, lit "and", wsStar, lit "password"]]]

def grammar_patterns : List RE :=
  [seqRE [lit "kindly", wsPlus, lit "do", wsPlus, lit "the", wsPlus, lit "needful"],
   seqRE [lit "please", wsPlus, lit "to", wsPlus, lit "verify"],
   seqRE [lit "you", wsPlus, lit "have", wsPlus, lit "been", wsPlus, lit "select"]]

/-- Group 1 of `\s*([^\n]+)` matched against `rest` (with Python's greedy
`\s*` and the backtracking that makes the tail start at the first non-space
character, or at the last non-newline character when `rest` is all
whitespace). -/
def fromGroupAt (rest : List Char) : Option (List Char) :=
  let wsmax := (rest.takeWhile isPySpace).length
  if wsmax < rest.length then
    some ((rest.drop wsmax).takeWhile (fun c => c ≠ '\n'))
  else
    match ((List.range rest.length).filter (fun i => rest.get? i ≠ some '\n')).getLast? with
    | some j => some ((rest.drop j).takeWhile (fun c => c ≠ '\n'))
    | none => none

/-- Group 1 of the leftmost match of `from:\s*([^\n]+)` in the lowered
content (check 5). -/
def fromAddressOf (cl : List Char) : Option (List Char) :=
  (List.range cl.length).findSome? (fun i =>
    if startsWith (chars "from:") (cl.drop i) then fromGroupAt (cl.drop (i + 5)) else none)

def senderBrands : List (List Char) :=
  [chars "paypal", chars "amazon", chars "google", chars "microsoft"]

def senderDomains : List (List Char) :=
  [chars "paypal.com", chars "amazon.com", chars "google.com", chars "microsoft.com"]

/-- `_calculate_risk_level`. -/
def calculate_risk_level (score : Int) : String :=
  if score ≥ 60 then "CRITICAL"
  else if score ≥ 40 then "HIGH"
  else if score ≥ 20 then "MEDIUM"
  else if score > 0 then "LOW"
  else "SAFE"

/-- `_generate_verdict`. -/
def generate_verdict (risk_level : String) (signal_count : Nat) : String :=
  if risk_level = "CRITICAL" then "PHISHING DETECTED - " ++ toString signal_count ++ " red flags found"
  else if risk_level = "HIGH" then "LIKELY PHISHING - " ++ toString signal_count ++ " suspicious indicators"
  else if risk_level = "MEDIUM" then "SUSPICIOUS - " ++ toString signal_count ++ " concerning elements"
  else if risk_level = "LOW" then "MINOR CONCERNS - " ++ toString signal_count ++ " small issues"
  else if risk_level = "SAFE" then "APPEARS LEGITIMATE - No phishing indicators found"
  else "Unable to assess"

/-- `_get_recommended_action`. -/
def get_recommended_action (risk_level : String) : String :=
  if risk_level = "CRITICAL" then "Do NOT click any links. Report as phishing and delete."
  else if risk_level = "HIGH" then "Do not interact. Verify sender through official channels."
  else if risk_level = "MEDIUM" then "Exercise caution. Verify before clicking any links."
  else if risk_level = "LOW" then "Probably safe but verify sender if unexpected."
  else if risk_level = "SAFE" then "Email appears legitimate - no action needed."
  else "Proceed with caution"

structure EmailScanResult where
  risk_score : Int
  risk_level : String
  verdict : String
  signals : List String
  indicators_found : Nat
  recommended_action : String
  deriving DecidableEq, Repr

/-- Checks 1-3 of `scan` (the phishing-phrase, social-engineering-keyword
and suspicious-URL loops): the `(signals, risk_score)` accumulator after
them. -/
def checks123 (content : List Char) : List String × Int :=
  let cl := lowerStr content
  let step1 := PHISHING_PHRASES.foldl (fun (p : List String × Int) pat =>
    match firstMatchSub pat cl with
    | some phrase => (p.1 ++ ["Phishing phrase: '" ++ String.mk phrase ++ "'"], p.2 + 15)
    | none => p) ([], 0)
  let step2 := SOCIAL_ENGINEERING_KEYWORDS.foldl (fun (p : List String × Int) kw =>
    if containsSub kw cl then
      (p.1 ++ ["Social engineering: '" ++ String.mk kw ++ "'"], p.2 + 10)
    else p) step1
  let urls := findAllAlts [urlRE] content
  urls.foldl (fun (p : List String × Int) u =>
    if [chars ".xyz", chars ".tk", chars ".ml", chars ".ga", chars ".cf"].any
        (fun tld => containsSub tld u) then
      (p.1 ++ ["Suspicious URL: " ++ String.mk (u.take 50)], p.2 + 20)
    else p) step2

/-- `EmailScanner.scan` (pure part of the `async` method). -/
def scan (content : List Char) : EmailScanResult :=
  let cl := lowerStr content
  let step3 := checks123 content
  let c4 := urgency_patterns.any (fun pat => reSearch pat cl)
  let step4 := if c4 then (step3.1 ++ ["High urgency language detected"], step3.2 + 15) else step3
  let c5 := match fromAddressOf cl with
    | some fa => senderBrands.any (fun b => containsSub b fa) &&
                 !(senderDomains.any (fun d => containsSub d fa))
    | none => false
  let step5 := if c5 then (step4.1 ++ ["Potentially spoofed sender domain"], step4.2 + 30) else step4
  let c6 := attachment_patterns.any (fun pat => reSearch pat cl)
  let step6 := if c6 then (step5.1 ++ ["Suspicious attachment reference"], step5.2 + 15) else step5
  let c7 := sensitive_patterns.any (fun pat => reSearch pat cl)
  let step7 := if c7 then (step6.1 ++ ["Request for sensitive information"], step6.2 + 25) else step6
  let c8 := grammar_patterns.any (fun pat => reSearch pat cl)
  let step8 := if c8 then (step7.1 ++ ["Grammatical errors typical of phishing"], step7.2 + 10) else step7
  let risk_score := min 100 step8.2
  let risk_level := calculate_risk_level risk_score
  { risk_score := risk_score
    risk_level := risk_level
    verdict := generate_verdict risk_level step8.1.length
    signals := step8.1.take 10
    indicators_found := step8.1.length
    recommended_action := get_recommended_action risk_level }

end EmailScanner

/-!
## LogsScanner (`app/tools/risk_logs.py`)
-/

namespace LogsScanner

/-- `THREAT_PATTERNS`: (pattern, threat type, score). -/
def THREAT_PATTERNS : List (RE × String × Int) :=
  [(seqRE [orLits ["failed", "invalid"], wsStar,
           orLits ["login", "auth", "password", "authentication"]], "auth_failure", 15),
   (seqRE [optRE (seqRE [lit "access", wsStar]), lit "denied"], "access_denied", 10),
   (seqRE [lit "unauthorized", wsStar, orLits ["access", "attempt"]], "unauthorized", 20),
   (seqRE [lit "sql", wsStar, lit "injection"], "sql_injection", 30),
   (orRE [lit "xss", seqRE [lit "cross", dotRE, lit "site", dotRE, lit "script"]], "xss_attack", 25),
   (orRE [seqRE [lit "brute", wsStar, lit "force"], seqRE [lit "multiple", wsStar, lit "failed"]],
    "brute_force", 25),
   (orRE [lit "ddos", seqRE [lit "dos", wsStar, lit "attack"]], "dos_attack", 30),
   (orLits ["malware", "virus", "trojan", "ransomware"], "malware", 35),
   (seqRE [orLits ["suspicious", "malicious"], wsStar, orLits ["file", "activity", "process"]],
    "suspicious_activity", 20),
   (seqRE [lit "port", wsStar, lit "scan"], "port_scan", 20),
   (seqRE [orLits ["intrusion", "breach"], wsStar, orLits ["detected", "attempt"]], "intrusion", 30),
   (seqRE [orLits ["critical", "severe"], wsStar, lit "error"], "critical_error", 15),
   (seqRE [orLits ["service", "system"], wsStar, orLits ["crash", "failure"]], "system_failure", 15)]

/-- `IP_PATTERN`: `\b(?:\d{1,3}\.){3}\d{1,3}\b`. -/
def IP_PATTERN : RE :=
  seqRE [wbRE, rep1To 3 digitRE, lit ".", rep1To 3 digitRE, lit ".",
         rep1To 3 digitRE, lit ".", rep1To 3 digitRE, wbRE]

/-- A `collections.Counter` with CPython dict semantics: counts keyed in
first-insertion order. -/
def cinc (k : List Char) (c : List (List Char × Nat)) : List (List Char × Nat) :=
  if c.any (fun p => p.1 = k) then
    c.map (fun p => if p.1 = k then (p.1, p.2 + 1) else p)
  else c ++ [(k, 1)]

def cget (k : List Char) (c : List (List Char × Nat)) : Nat :=
  match c.find? (fun p => p.1 = k) with
  | some p => p.2
  | none => 0

/-- `Counter.most_common`: stable sort by count, descending (equal counts
keep first-insertion order, as CPython's stable `sorted` does). -/
def mostCommon (c : List (List Char × Nat)) : List (List Char × Nat) :=
  c.foldl (fun acc p => insertDesc acc p) []
where
  insertDesc : List (List Char × Nat) → (List Char × Nat) → List (List Char × Nat)
  | [], p => [p]
  | q :: qs, p => if q.2 ≥ p.2 then q :: insertDesc qs p else p :: q :: qs

/-- Python `str.title()` over ASCII: uppercase each letter that follows a
non-letter, lowercase the other letters. -/
def pyTitle (s : List Char) : List Char :=
  (s.foldl (fun (p : List Char × Bool) c =>
    if c.isAlpha then
      ((if p.2 then c.toLower else c.toUpper) :: p.1, true)
    else (c :: p.1, false)) ([], false)).1.reverse

/-- `threat_type.replace('_', ' ')`. -/
def underscoreToSpace (s : List Char) : List Char :=
  s.map (fun c => if c = '_' then ' ' else c)

/-- `_calculate_risk_level`. -/
def calculate_risk_level (score : Int) : String :=
  if score ≥ 70 then "CRITICAL"
  else if score ≥ 50 then "HIGH"
  else if score ≥ 30 then "MEDIUM"
  else if score > 0 then "LOW"
  else "SAFE"

/-- `_generate_verdict`. -/
def generate_verdict (risk_level : String) (threats : List (List Char × Nat)) : String :=
  let total := (threats.map (fun p => p.2)).sum
  if risk_level = "CRITICAL" then
    "CRITICAL THREATS - " ++ toString total ++ " security events requiring immediate attention"
  else if risk_level = "HIGH" then
    "HIGH RISK - " ++ toString total ++ " concerning security events detected"
  else if risk_level = "MEDIUM" then
    "MODERATE - " ++ toString total ++ " events warrant investigation"
  else if risk_level = "LOW" then
    "LOW RISK - " ++ toString total ++ " minor events detected"
  else "CLEAN - No significant security events found"

/-- `_get_recommended_action`. -/
def get_recommended_action (risk_level : String) (threats : List (List Char × Nat)) : String :=
  let has := fun k => threats.any (fun p => p.1 = chars k)
  if has "intrusion" || has "malware" then
    "IMMEDIATE: Isolate affected systems, initiate incident response."
  else if has "brute_force" || has "sql_injection" then
    "HIGH: Block suspicious IPs, review access controls, check for compromise."
  else if has "auth_failure" then
    "Review failed login attempts, consider account lockout policies."
  else if risk_level = "CRITICAL" || risk_level = "HIGH" then
    "Investigate flagged events immediately, consider security team escalation."
  else if risk_level = "MEDIUM" then
    "Monitor situation, investigate if pattern continues."
  else "Continue normal monitoring - no immediate action required."

structure LogsScanResult where
  lines_analyzed : Nat
  risk_score : Int
  risk_level : String
  verdict : String
  signals : List String
  threat_summary : List (List Char × Nat)
  suspicious_ips : List (List Char)
  recommended_action : String
  deriving DecidableEq, Repr

/-- State threaded through the per-line loop of `scan`:
signals, risk score, threat-type counter, detected IPs. -/
structure LoopState where
  signals : List String
  score : Int
  threats : List (List Char × Nat)
  ips : List (List Char)
  deriving Repr

/-- One line of the analysis loop in `scan`. -/
def scanLine (st : LoopState) (line : List Char) : LoopState :=
  let ll := lowerStr line
  let st1 := THREAT_PATTERNS.foldl (fun (s : LoopState) pts =>
    if reSearch pts.1 ll then
      let threats := cinc (chars pts.2.1) s.threats
      let signals :=
        if cget (chars pts.2.1) threats = 1 then
          s.signals ++ [String.mk (pyTitle (underscoreToSpace (chars pts.2.1))) ++ " detected"]
        else s.signals
      { s with threats := threats, signals := signals, score := s.score + pts.2.2 }
    else s) st
  { st1 with ips := st1.ips ++ findAllAlts [IP_PATTERN] line }

/-- `LogsScanner.scan` (pure part of the `async` method). -/
def scan (logs : List Char) : LogsScanResult :=
  let lines := splitOnChar '\n' (stripStr logs)
  let st := lines.foldl scanLine ⟨[], 0, [], []⟩
  let ip_counts := st.ips.foldl (fun c ip => cinc ip c) []
  let top5 := (mostCommon ip_counts).take 5
  let afterIps := top5.foldl (fun (p : List String × Int) ipc =>
    if ipc.2 ≥ 5 then
      (p.1 ++ ["Multiple events from IP: " ++ String.mk ipc.1 ++ " (" ++ toString ipc.2 ++ " occurrences)"],
       p.2 + 20)
    else p) (st.signals, st.score)
  let failed_logins := cget (chars "auth_failure") st.threats
  let after5 := if failed_logins ≥ 5 then
      (afterIps.1 ++ ["High failed login count: " ++ toString failed_logins], afterIps.2 + 15)
    else afterIps
  let after10 := if failed_logins ≥ 10 then
      (after5.1 ++ ["Possible brute force attack detected"], after5.2 + 25)
    else after5
  let risk_score := min 100 after10.2
  let risk_level := calculate_risk_level risk_score
  { lines_analyzed := lines.length
    risk_score := risk_score
    risk_level := risk_level
    verdict := generate_verdict risk_level st.threats
    signals := after10.1.take 10
    threat_summary := st.threats
    suspicious_ips := (top5.filter (fun p => p.2 ≥ 3)).map (fun p => p.1)
    recommended_action := get_recommended_action risk_level st.threats }

end LogsScanner

/-!
## IntentRouter (`app/agent_gateway/intent_router.py`)
-/

/-- The `Intent` enum. -/
inductive Intent where
  | SCAN_LINK
  | SCAN_EMAIL
  | SCAN_LOGS
  | GUARDIAN_STATUS
  | SECURITY_QUESTION
  | GENERAL_CHAT
  | HELP
  | GREETING
  | UNKNOWN
  deriving DecidableEq, Repr

/-- `Intent.value`. -/
def Intent.value : Intent → String
  | .SCAN_LINK => "scan_link"
  | .SCAN_EMAIL => "scan_email"
  | .SCAN_LOGS => "scan_logs"
  | .GUARDIAN_STATUS => "guardian_status"
  | .SECURITY_QUESTION => "security_question"
  | .GENERAL_CHAT => "general_chat"
  | .HELP => "help"
  | .GREETING => "greeting"
  | .UNKNOWN => "unknown"

/-- The shapes `extracted_data` takes in `intent_router.py` (a dict with at
most one relevant key per intent). -/
inductive ExtractedData where
  | empty
  | urls (us : List (List Char))
  | emailContent (c : List Char)
  | logContent (c : List Char)
  | keyword (k : List Char)
  | topic (t : List Char)
  deriving DecidableEq, Repr

/-- `IntentResult`.  Confidence floats in the source are exact decimal
literals (0.95, 0.90, 0.85, 0.70, 0.50); they are modelled in hundredths
(`95` stands for `0.95`) so that equality is kernel-decidable. -/
structure IntentResult where
  intent : Intent
  confidence : Nat
  extracted_data : ExtractedData
  deriving DecidableEq, Repr

namespace IntentRouter

/-- `[a-zA-Z0-9]` -/
def alnumRE : RE := RE.pred Char.isAlphanum

/-- `[-a-zA-Z0-9]` -/
def dashAlnumRE : RE := RE.pred (fun c => c = '-' || c.isAlphanum)

/-- `[a-zA-Z]` -/
def alphaRE : RE := RE.pred Char.isAlpha

/-- The three alternatives of `URL_PATTERN`, in order (the body class of the
first is the one defined for `risk_email.py`, which is textually the same). -/
def URL_PATTERN_ALTS : List RE :=
  [EmailScanner.urlRE,
   seqRE [lit "www.", plusRE EmailScanner.urlCharRE],
   seqRE [alnumRE, RE.star dashAlnumRE, lit ".", repAtLeast 2 alphaRE,
          optRE (seqRE [lit "/", RE.star nonWsRE])]]

/-- `^\d+\.\d+$` (version-number false positive). -/
def versionNumberRE : RE :=
  seqRE [bolRE, plusRE digitRE, lit ".", plusRE digitRE, eolRE]

/-- `extract_urls`. -/
def extract_urls (message : List Char) : List (List Char) :=
  (findAllAlts URL_PATTERN_ALTS message).filter (fun u =>
    !(reMatchStart versionNumberRE u) && !(startsWith (chars ".") u && u.length < 6))

/-- `_looks_like_email` indicator catalogue. -/
def email_indicators : List RE :=
  [seqRE [wbRE, lit "from:", wsStar, plusRE nonWsRE, lit "@", plusRE nonWsRE],
   seqRE [wbRE, lit "to:", wsStar, plusRE nonWsRE, lit "@", plusRE nonWsRE],
   seqRE [wbRE, lit "subject:", wsStar, plusRE dotRE],
   seqRE [wbRE, lit "cc:", wsStar, plusRE nonWsRE, lit "@", plusRE nonWsRE],
   seqRE [wbRE, lit "sent:", wsStar, plusRE dotRE, repRE 4 digitRE],
   seqRE [lit "dear", wsPlus, orLits ["user", "customer", "sir", "madam", "valued"]],
   seqRE [lit "click", wsPlus, orRE [lit "here", seqRE [lit "the", wsPlus, lit "link"], lit "below"]],
   seqRE [lit "verify", wsPlus, lit "your", wsPlus, orLits ["account", "email", "identity"]],
   seqRE [lit "urgent", wsPlus, orLits ["action", "response", "attention"]]]

/-- `_looks_like_email`: at least two indicators match the lowered message. -/
def looks_like_email (message : List Char) : Bool :=
  let ml := lowerStr message
  (email_indicators.filter (fun r => reSearch r ml)).length ≥ 2

/-- `_looks_like_logs` indicator catalogue (matched case-insensitively:
lowered input, lowercase transcription). -/
def log_indicators : List RE :=
  [seqRE [repRE 4 digitRE, clsRE ['-', '/'], repRE 2 digitRE, clsRE ['-', '/'], repRE 2 digitRE],
   seqRE [repRE 2 digitRE, lit ":", repRE 2 digitRE, lit ":", repRE 2 digitRE],
   seqRE [wbRE, orLits ["error", "warn", "info", "debug", "critical"], wbRE],
   seqRE [wbRE, orLits ["ip", "address"], lit ":", wsStar, LinkScanner.ipv4LooseRE],
   seqRE [wbRE, orLits ["failed", "denied", "blocked", "rejected"], wbRE],
   seqRE [wbRE, orLits ["login", "auth", "access"], wsPlus, orLits ["attempt", "failure"]]]

/-- `_looks_like_logs`. -/
def looks_like_logs (message : List Char) : Bool :=
  let ml := lowerStr message
  (log_indicators.filter (fun r => reSearch r ml)).length ≥ 2

/-- `[\s!?.]` in the greeting patterns. -/
def greetTailRE : RE := RE.pred (fun c => isPySpace c || c = '!' || c = '?' || c = '.')

/-- `INTENT_PATTERNS` in dict insertion order. -/
def INTENT_PATTERNS : List (Intent × List RE) :=
  [(Intent.SCAN_LINK,
    [seqRE [wbRE, lit "scan", wbRE, dotStar, wbRE, orLits ["link", "url", "website", "site"], wbRE],
     seqRE [wbRE, lit "check", wbRE, dotStar, wbRE, orLits ["link", "url", "website", "site"], wbRE],
     seqRE [wbRE, lit "is", wbRE, dotStar, wbRE, orLits ["safe", "secure", "legit", "legitimate"], wbRE],
     seqRE [wbRE, lit "verify", wbRE, dotStar, wbRE, orLits ["link", "url"], wbRE]]),
   (Intent.SCAN_EMAIL,
    [seqRE [wbRE, lit "scan", wbRE, dotStar, wbRE, lit "email", wbRE],
     seqRE [wbRE, lit "check", wbRE, dotStar, wbRE, lit "email", wbRE],
     seqRE [wbRE, lit "phishing", wbRE, dotStar, wbRE, lit "email", wbRE],
     seqRE [wbRE, lit "analyze", wbRE, dotStar, wbRE, lit "email", wbRE],
     seqRE [wbRE, lit "suspicious", wbRE, dotStar, wbRE, lit "email", wbRE],
     seqRE [wbRE, lit "email", wbRE, dotStar, wbRE, lit "scan", wbRE]]),
   (Intent.SCAN_LOGS,
    [seqRE [wbRE, lit "scan", wbRE, dotStar, wbRE, lit "log", optRE (lit "s"), wbRE],
     seqRE [wbRE, lit "check", wbRE, dotStar, wbRE, lit "log", optRE (lit "s"), wbRE],
     seqRE [wbRE, lit "analyze", wbRE, dotStar, wbRE, lit "log", optRE (lit "s"), wbRE],
     seqRE [wbRE, lit "review", wbRE, dotStar, wbRE, lit "log", optRE (lit "s"), wbRE],
     seqRE [wbRE, lit "log", optRE (lit "s"), wbRE, dotStar, wbRE, lit "scan", wbRE]]),
   (Intent.GUARDIAN_STATUS,
    [seqRE [wbRE, lit "status", wbRE],
     seqRE [wbRE, lit "guardian", wbRE],
     seqRE [wbRE, lit "system", wbRE, dotStar, wbRE, lit "status", wbRE],
     seqRE [wbRE, lit "how", wbRE, dotStar, wbRE, lit "sentri", wbRE],
     seqRE [wbRE, lit "health", wbRE, dotStar, wbRE, lit "check", wbRE]]),
   (Intent.HELP,
    [seqRE [wbRE, lit "help", wbRE],
     seqRE [wbRE, lit "what can you", wbRE],
     seqRE [wbRE, lit "what do you", wbRE],
     seqRE [wbRE, lit "how to", wbRE],
     seqRE [wbRE, lit "commands", wbRE],
     seqRE [wbRE, lit "features", wbRE]]),
   (Intent.GREETING,
    [seqRE [bolRE, orLits ["hi", "hello", "hey", "greetings", "good morning",
                           "good afternoon", "good evening"],
            RE.star greetTailRE, eolRE],
     seqRE [bolRE, orLits ["hi", "hello", "hey"], wsPlus, orLits ["there", "sentri", "bot"],
            RE.star greetTailRE, eolRE]]),
   (Intent.SECURITY_QUESTION,
    [seqRE [wbRE, lit "what", wsPlus, lit "is", wbRE, dotStar, wbRE,
            orLits ["phishing", "malware", "ransomware", "virus", "trojan", "security"], wbRE],
     seqRE [wbRE, lit "how", wsPlus, orLits ["to", "do"], wbRE, dotStar, wbRE,
            orLits ["protect", "secure", "prevent", "avoid"], wbRE],
     seqRE [wbRE, lit "explain", wbRE, dotStar, wbRE, orLits ["security", "attack", "threat"], wbRE],
     seqRE [wbRE, lit "tip", optRE (lit "s"), wbRE, dotStar, wbRE,
            orLits ["security", "safety", "protection"], wbRE],
     seqRE [wbRE, orLits ["password", "auth", "authentication", "2fa", "mfa"], wbRE],
     seqRE [wbRE, orLits ["cyber", "security", "threat", "attack", "vulnerability"], wbRE]])]

def SECURITY_KEYWORDS : List (List Char) :=
  [chars "phishing", chars "malware", chars "ransomware", chars "virus", chars "trojan",
   chars "hack", chars "security", chars "threat", chars "attack", chars "vulnerability",
   chars "breach", chars "password", chars "authentication", chars "2fa", chars "mfa",
   chars "firewall", chars "encryption", chars "ssl", chars "https", chars "certificate",
   chars "scam", chars "fraud"]

/-- `rf'\b{re.escape(keyword)}\b'` for a keyword of word characters. -/
def kwBounded (kw : List Char) : RE :=
  seqRE [wbRE, (kw.map (fun c => RE.pred (fun d => d = c))).foldr RE.seq RE.eps, wbRE]

/-- `_extract_relevant_data`. -/
def extract_relevant_data (message : List Char) (intent : Intent) : ExtractedData :=
  match intent with
  | .SCAN_LINK => .urls (extract_urls message)
  | .SCAN_EMAIL => .emailContent message
  | .SCAN_LOGS => .logContent message
  | .SECURITY_QUESTION =>
    match SECURITY_KEYWORDS.find? (fun kw => containsSub kw (lowerStr message)) with
    | some kw => .topic kw
    | none => .empty
  | _ => .empty

/-- `detect_intent`. -/
def detect_intent (message : List Char) : IntentResult :=
  let message_lower := stripStr (lowerStr message)
  let urls := extract_urls message
  if urls ≠ [] then
    { intent := .SCAN_LINK, confidence := 95, extracted_data := .urls urls }
  else if looks_like_email message then
    { intent := .SCAN_EMAIL, confidence := 90, extracted_data := .emailContent message }
  else if looks_like_logs message then
    { intent := .SCAN_LOGS, confidence := 85, extracted_data := .logContent message }
  else
    match INTENT_PATTERNS.findSome? (fun ip =>
      if ip.2.any (fun r => reSearch r message_lower) then some ip.1 else none) with
    | some intent =>
      { intent := intent, confidence := 85,
        extracted_data := extract_relevant_data message intent }
    | none =>
      match SECURITY_KEYWORDS.find? (fun kw => reSearch (kwBounded kw) message_lower) with
      | some kw =>
        { intent := .SECURITY_QUESTION, confidence := 70, extracted_data := .keyword kw }
      | none =>
        { intent := .GENERAL_CHAT, confidence := 50, extracted_data := .empty }

end IntentRouter

/-!
## LocalLLM (`app/llm/local_llm.py`)

Decorative emoji prefixes inside user-facing strings are omitted throughout
this embedding; all other text is kept verbatim.
-/

namespace LocalLLM

/-- `KNOWLEDGE_BASE` (dict insertion order; keys are `|`-separated keyword
lists). -/
def KNOWLEDGE_BASE : List (String × String) :=
  [("phishing",
    "**Phishing** is a cyber attack tricking you into revealing sensitive information.\n\n**Warning Signs:**\n• Urgent language ('Act NOW!')\n• Suspicious sender addresses\n• Links that don't match the company\n• Requests for passwords/payment info\n• Grammar mistakes\n\n**Protection:**\n• Hover over links before clicking\n• Verify sender through official channels\n• Never share passwords via email\n• Use 2FA on all accounts\n• Report suspicious emails"),
   ("malware",
    "**Malware** is malicious software designed to harm your device or steal data.\n\n**Common Types:**\n• **Viruses** - Infect files and spread\n• **Ransomware** - Encrypts files for ransom\n• **Trojans** - Hidden in legitimate software\n• **Spyware** - Steals information secretly\n• **Worms** - Self-replicating across networks\n\n**Protection:**\n• Keep antivirus updated\n• Don't download from untrusted sources\n• Update all software regularly\n• Be careful with email attachments\n• Backup important files"),
   ("password",
    "**Strong Password Tips:**\n\n**Create Strong Passwords:**\n• At least 12+ characters\n• Mix uppercase, lowercase, numbers, symbols\n• Avoid personal info (birthdays, names)\n• Use passphrases: \"Coffee$Morning#2024!\"\n\n**Best Practices:**\n• Unique password for each account\n• Use a password manager\n• Enable 2FA/MFA everywhere\n• Change passwords if breached\n• Never share passwords\n\n**Avoid:**\n• \"password123\", \"qwerty\"\n• Pet names, birthdates\n• Same password everywhere"),
   ("2fa|mfa|authentication",
    "**Two-Factor Authentication (2FA/MFA)**\n\n**What It Is:**\nExtra security beyond just a password. Requires something you:\n• **Know** (password)\n• **Have** (phone, security key)\n• **Are** (fingerprint, face)\n\n**Best 2FA Methods:**\n1. **Hardware Keys** (YubiKey) - Most secure\n2. **Authenticator Apps** (Google Auth) - Very secure\n3. **SMS Codes** - Better than nothing, but can be intercepted\n\n**Enable 2FA On:**\n• Email accounts\n• Banking and financial\n• Social media\n• Work accounts\n• Anywhere that offers it"),
   ("ransomware",
    "**Ransomware** encrypts your files and demands payment to unlock them.\n\n**How It Spreads:**\n• Phishing emails with attachments\n• Malicious downloads\n• Exploited vulnerabilities\n• Infected USB drives\n\n**Protection:**\n• Regular offline backups (3-2-1 rule)\n• Keep systems updated\n• Employee security training\n• Use anti-ransomware tools\n• Disable macros in documents\n\n**If Infected:**\n• Disconnect from network immediately\n• Don't pay the ransom\n• Report to authorities\n• Restore from clean backups"),
   ("vpn",
    "**VPN (Virtual Private Network)**\n\n**What It Does:**\n• Encrypts your internet traffic\n• Hides your IP address\n• Protects on public WiFi\n• Bypasses geographic restrictions\n\n**When to Use:**\n• Public WiFi (coffee shops, airports)\n• Accessing sensitive data remotely\n• Privacy-conscious browsing\n\n**Limitations:**\n• Doesn't make you anonymous\n• Free VPNs may log your data\n• Won't protect from malware\n• Choose reputable providers"),
   ("social engineering",
    "**Social Engineering** manipulates people into revealing information.\n\n**Common Tactics:**\n• **Phishing** - Fake emails/websites\n• **Pretexting** - Fake scenarios\n• **Baiting** - Free offers/downloads\n• **Tailgating** - Following into buildings\n• **Vishing** - Phone scams\n\n**Defense:**\n• Verify identities independently\n• Don't trust unsolicited contacts\n• Think before clicking/sharing\n• Report suspicious requests\n• Security awareness training")]

def FALLBACK_question : String :=
  "I'd love to help with that! My full AI capabilities are temporarily limited.\n\n**What I can still do:**\n• Scan links for security threats\n• Analyze suspicious emails\n• Review security logs\n• Answer basic security questions\n\nTry asking about phishing, passwords, or malware!"

def FALLBACK_chat : String :=
  "Thanks for chatting! I'm here to help with security.\n\n**Quick Actions:**\n• Paste a URL to scan it\n• Share suspicious email content\n• Ask about security topics\n\nHow can I help protect you today?"

/-- The knowledge-base loop of `generate`: the first entry one of whose
`|`-separated keywords (of length ≥ 3) occurs word-bounded in the lowered
prompt. -/
def kbLookup (prompt_lower : List Char) : Option String :=
  KNOWLEDGE_BASE.findSome? (fun kr =>
    if (splitOnChar '|' (chars kr.1)).any (fun kw =>
        !(kw.length < 3) && reSearch (IntentRouter.kwBounded kw) prompt_lower) then
      some kr.2
    else none)

/-- `LocalLLM.generate` (context is unused by the source body). -/
def generate (prompt : List Char) : String :=
  let prompt_lower := lowerStr prompt
  match kbLookup prompt_lower with
  | some response => response
  | none =>
    if [chars "what", chars "how", chars "why", chars "explain", chars "tell"].any
        (fun q => containsSub q prompt_lower) then FALLBACK_question
    else FALLBACK_chat

/-- `answer_security_question` delegates to `generate`. -/
def answer_security_question (question : List Char) : String := generate question

/-- `explain_scan` always declines (returns `None`). -/
def explain_scan : Option String := none

/-- `is_available` is constantly true. -/
def is_available : Bool := true

end LocalLLM

/-!
## LLMRouter (`app/llm/llm_router.py`)

The two remote providers (`ClaudeLLM`, `GeminiLLM`) are network clients;
they are modelled parametrically: an availability flag and a `generate`
call that may raise (`Except.error`), return `None`, or return any string
(`.ok (some s)`, possibly empty).  `context` and `max_tokens` carry no
control flow in the router and are absorbed into the abstract call.
-/

inductive LLMProvider where
  | CLAUDE
  | GEMINI
  | LOCAL
  | AUTO
  deriving DecidableEq, Repr

structure RemoteLLM where
  available : Bool
  gen : List Char → Except String (Option String)

namespace LLMRouter

/-- `_try_provider` for a remote provider: availability check, exception
trap, and Python truthiness of the response (`None`/`""` are falsy). -/
def tryRemote (r : RemoteLLM) (prompt : List Char) : Option String :=
  if r.available then
    match r.gen prompt with
    | .ok (some s) => if s = "" then none else some s
    | .ok none => none
    | .error _ => none
  else none

/-- Python truthiness filter applied by `generate` to a provider result. -/
def truthy (o : Option String) : Option String :=
  match o with
  | some s => if s = "" then none else some s
  | none => none

/-- The auto fallback chain of `generate`: Claude if available, then
Gemini if available, then Local. -/
def autoChain (claude gemini : RemoteLLM) (prompt : List Char) : String :=
  match (if claude.available then tryRemote claude prompt else none) with
  | some s => s
  | none =>
    match (if gemini.available then tryRemote gemini prompt else none) with
    | some s => s
    | none => LocalLLM.generate prompt

/-- `LLMRouter.generate`: preferred provider first if not AUTO, then the
Claude → Gemini → Local fallback chain. -/
def generate (preferred : LLMProvider) (claude gemini : RemoteLLM)
    (prompt : List Char) : String :=
  let viaPref : Option String :=
    match preferred with
    | .AUTO => none
    | .CLAUDE => tryRemote claude prompt
    | .GEMINI => tryRemote gemini prompt
    | .LOCAL => some (LocalLLM.generate prompt)
  match truthy viaPref with
  | some s => s
  | none => autoChain claude gemini prompt

end LLMRouter

/-!
## MemoryManager (`app/agent_gateway/memory_manager.py`)

`MemoryEntry.timestamp` / `ConversationContext.created_at` / `updated_at`
hold `datetime.utcnow()` strings (external I/O) and `MemoryEntry.metadata`
is an opaque pass-through dict; both are omitted.  The in-memory store
(`self._store`, a dict) is an association list with dict update semantics
(updating an existing key keeps its position, new keys append).
-/

structure MemoryEntry where
  role : String
  content : List Char
  platform : List Char
  intent : Option (List Char)
  deriving DecidableEq, Repr

structure ConversationContext where
  user_id : List Char
  entries : List MemoryEntry
  summary : List Char
  last_intent : Option (List Char)
  last_platform : List Char
  deriving DecidableEq, Repr

abbrev MemStore : Type := List (List Char × ConversationContext)

namespace MemoryManager

def lookupStore (store : MemStore) (k : List Char) : Option ConversationContext :=
  match store.find? (fun p => p.1 = k) with
  | some p => some p.2
  | none => none

/-- Dict assignment `self._store[k] = v`. -/
def insertStore (store : MemStore) (k : List Char) (v : ConversationContext) : MemStore :=
  if store.any (fun p => p.1 = k) then
    store.map (fun p => if p.1 = k then (k, v) else p)
  else store ++ [(k, v)]

def PLATFORM_PREFIXES : List (List Char) :=
  [chars "telegram_", chars "web_", chars "mobile_", chars "api_"]

/-- `normalize_user_id`: strip the first recognized platform prefix (the
loop breaks after one strip), then prepend `user_`.  The `platform`
argument is unused by the source body. -/
def normalize_user_id (user_id : List Char) (_platform : List Char) : List Char :=
  let stripped :=
    match PLATFORM_PREFIXES.find? (fun p => List.isPrefixOf p user_id) with
    | some p => user_id.drop p.length
    | none => user_id
  chars "user_" ++ stripped

/-- `load_memory`: get-or-create; both the lazily created context and the
`last_platform` touch are visible in the store (the dict holds the mutated
object). -/
def load_memory (store : MemStore) (user_id platform : List Char) :
    MemStore × ConversationContext :=
  let nid := normalize_user_id user_id platform
  match lookupStore store nid with
  | none =>
    let ctx : ConversationContext :=
      { user_id := nid, entries := [], summary := [], last_intent := none,
        last_platform := platform }
    (insertStore store nid ctx, ctx)
  | some ctx =>
    let ctx1 := { ctx with last_platform := platform }
    (insertStore store nid ctx1, ctx1)

/-- The summary part one old entry contributes in `_trim_memory`.  The
`if entry.intent:` test is Python truthiness: an entry whose intent is
`None` or the empty string contributes nothing. -/
def summaryPart (e : MemoryEntry) : Option (List Char) :=
  match e.intent with
  | some i => if i = [] then none
      else some (('[' :: i ++ chars "] ") ++ e.content.take 50)
  | none => none

/-- `_trim_memory`.  When `max_entries = 0` the Python slices `[:-0]` and
`[-0:]` are `[:0]` and `[0:]`: nothing is trimmed and no summary is made. -/
def trim_memory (max_entries : Nat) (ctx : ConversationContext) : ConversationContext :=
  if max_entries = 0 then ctx
  else
    let old_entries := ctx.entries.take (ctx.entries.length - max_entries)
    let entries := ctx.entries.drop (ctx.entries.length - max_entries)
    let summary_parts := old_entries.filterMap summaryPart
    if summary_parts ≠ [] then
      { ctx with entries := entries,
                 summary := chars "Earlier: " ++
                   (List.intercalate (chars "; ") (summary_parts.drop (summary_parts.length - 5))) }
    else { ctx with entries := entries }

/-- `save_memory`. -/
def save_memory (max_entries : Nat) (store : MemStore)
    (user_id user_message assistant_reply platform : List Char)
    (intent : Option (List Char)) : MemStore :=
  let nid := normalize_user_id user_id platform
  let lm := load_memory store user_id platform
  let user_entry : MemoryEntry :=
    { role := "user", content := user_message, platform := platform, intent := intent }
  let assistant_entry : MemoryEntry :=
    { role := "assistant", content := assistant_reply, platform := platform, intent := intent }
  let ctx1 := { lm.2 with
    entries := lm.2.entries ++ [user_entry, assistant_entry],
    last_intent := intent,
    last_platform := platform }
  let ctx2 := if ctx1.entries.length > max_entries then trim_memory max_entries ctx1 else ctx1
  insertStore lm.1 nid ctx2

/-- `get_context_string`: the returned context string.  The store touch
made by its `load_memory` call is `(load_memory store user_id platform).1`;
the orchestrator's context-load step carries both. -/
def get_context_string (store : MemStore) (user_id platform : List Char)
    (max_turns : Nat := 3) : List Char :=
  let lm := load_memory store user_id platform
  let ctx := lm.2
  if ctx.entries = [] then []
  else
    let parts0 : List (List Char) :=
      if ctx.summary ≠ [] then [chars "Previous Summary: " ++ ctx.summary] else []
    let recent := ctx.entries.drop (ctx.entries.length - max_turns * 2)
    let parts := parts0 ++ recent.map (fun e =>
      (if e.role = "user" then chars "User" else chars "Sentri") ++ chars ": " ++ e.content.take 200)
    List.intercalate (chars "\n") parts

end MemoryManager

/-!
## ResponseBuilder (`app/agent_gateway/response_builder.py`)
-/

structure FormattedResponse where
  text : List Char
  intent : Intent
  confidence : Nat
  suggested_actions : List String
  deriving DecidableEq, Repr

namespace ResponseBuilder

def error_message (error_type : String) : List Char :=
  if error_type = "general" then
    chars "I encountered an issue processing your request. Please try again."
  else if error_type = "llm_unavailable" then
    chars "My AI brain is temporarily unavailable. I can still scan links and emails using my security tools!"
  else if error_type = "scan_failed" then
    chars "The scan couldn't be completed. Please check the input and try again."
  else if error_type = "auth_required" then
    chars "Please log in to use this feature."
  else if error_type = "rate_limit" then
    chars "Too many requests. Please wait a moment and try again."
  else chars "I encountered an issue processing your request. Please try again."

/-- `build_error_response` (`details` falsy - the empty string - appends
nothing). -/
def build_error_response (error_type : String) (details : List Char) : FormattedResponse :=
  let text := error_message error_type ++
    (if details ≠ [] then chars "\n\nDetails: " ++ details else [])
  { text := text
    intent := Intent.UNKNOWN
    confidence := 0
    suggested_actions := ["Try again", "Get help"] }

/-- `format_for_platform`: only the mobile branch changes anything
(truncation to 500 characters). -/
def format_for_platform (response : FormattedResponse) (platform : List Char) :
    FormattedResponse :=
  if platform = chars "mobile" && response.text.length > 500 then
    { response with text := response.text.take 500 ++ chars "..." }
  else response

end ResponseBuilder

/-!
## SentriGateway (`app/agent_gateway/gateway.py`)

`process_message` sequences five steps inside one `try`: intent detection,
context load, intent routing (tools / LLM handlers), memory save, platform
formatting.  Python exceptions are modelled with `Except (List Char)`
(the error value is `str(e)`); the orchestrator-level `except` catches any
of them.  The route step abstracts `_route_intent` (whose behaviour depends
on the injected `tools` and `llm_router` collaborators); the stats counters
(`self._stats`) are presentation data and are omitted.
-/

structure GatewayResponse where
  text : List Char
  intent : Intent
  confidence : Nat
  suggested_actions : List String
  deriving DecidableEq, Repr

/-- The five steps of `process_message`, each allowed to raise.  The
context-load step returns the store alongside the context string: its
`load_memory` call lazily creates an empty context for a new user (and
refreshes `last_platform`), a mutation of `self._store` that survives a
later exception. -/
structure GatewaySteps where
  detect : List Char → Except (List Char) IntentResult
  getContext : MemStore → List Char → List Char → Except (List Char) (MemStore × List Char)
  route : IntentResult → List Char → List Char → List Char → List Char →
    Except (List Char) FormattedResponse
  save : MemStore → List Char → List Char → List Char → List Char → Option (List Char) →
    Except (List Char) MemStore
  format : FormattedResponse → List Char → Except (List Char) FormattedResponse

namespace SentriGateway

/-- The degraded-mode `GatewayResponse` built in the `except` handler. -/
def errorGatewayResponse (e : List Char) : GatewayResponse :=
  let er := ResponseBuilder.build_error_response "general" e
  { text := er.text, intent := Intent.UNKNOWN, confidence := 0,
    suggested_actions := er.suggested_actions }

/-- `process_message`: returns the (possibly updated) store together with
the response; any step raising is resolved at this boundary.  A failure
after the save step keeps the saved store (object mutations are not rolled
back by a Python `except`). -/
def process_message (steps : GatewaySteps) (store : MemStore)
    (user_id message platform : List Char) : MemStore × GatewayResponse :=
  match steps.detect message with
  | .error e => (store, errorGatewayResponse e)
  | .ok intent_result =>
    match steps.getContext store user_id platform with
    | .error e => (store, errorGatewayResponse e)
    | .ok (store1, context) =>
      match steps.route intent_result message user_id platform context with
      | .error e => (store1, errorGatewayResponse e)
      | .ok response =>
        match steps.save store1 user_id message response.text platform
            (some (chars intent_result.intent.value)) with
        | .error e => (store1, errorGatewayResponse e)
        | .ok store2 =>
          match steps.format response platform with
          | .error e => (store2, errorGatewayResponse e)
          | .ok formatted =>
            (store2,
             { text := formatted.text, intent := formatted.intent,
               confidence := formatted.confidence,
               suggested_actions := formatted.suggested_actions })

/-- The orchestrator with its concrete collaborators (intent router, memory
manager with the default `max_entries = 20` and `max_turns = 3`, response
builder), and the tools/LLM-dependent `_route_intent` left as a parameter. -/
def realSteps (route : IntentResult → List Char → List Char → List Char → List Char →
    Except (List Char) FormattedResponse) : GatewaySteps :=
  { detect := fun m => .ok (IntentRouter.detect_intent m)
    getContext := fun st u p => .ok ((MemoryManager.load_memory st u p).1,
      MemoryManager.get_context_string st u p 3)
    route := route
    save := fun st u m t p i => .ok (MemoryManager.save_memory 20 st u m t p i)
    format := fun r p => .ok (ResponseBuilder.format_for_platform r p) }

end SentriGateway

/-!
## Claim-support definitions
-/

/-- A sequence of saved turns for one user
(`(user_message, assistant_reply, platform, intent)` per turn). -/
def saveTurns (max_entries : Nat) (user_id : List Char)
    (turns : List (List Char × List Char × List Char × Option (List Char)))
    (store : MemStore) : MemStore :=
  turns.foldl (fun st t =>
    MemoryManager.save_memory max_entries st user_id t.1 t.2.1 t.2.2.1 t.2.2.2) store

/-- The context stored for a user by one `save_memory` call, as a function
of the previously stored context (`none` when the user is new): append the
user and assistant entries, update the latest intent/platform, trim when
over `max_entries`. -/
def savedContext (max_entries : Nat) (oc : Option ConversationContext)
    (nid user_message assistant_reply platform : List Char)
    (intent : Option (List Char)) : ConversationContext :=
  let base : ConversationContext :=
    match oc with
    | none =>
      { user_id := nid, entries := [], summary := [], last_intent := none,
        last_platform := platform }
    | some ctx => { ctx with last_platform := platform }
  let user_entry : MemoryEntry :=
    { role := "user", content := user_message, platform := platform, intent := intent }
  let assistant_entry : MemoryEntry :=
    { role := "assistant", content := assistant_reply, platform := platform, intent := intent }
  let ctx1 := { base with
    entries := base.entries ++ [user_entry, assistant_entry],
    last_intent := intent, last_platform := platform }
  if ctx1.entries.length > max_entries then MemoryManager.trim_memory max_entries ctx1
  else ctx1

/-- Python truthiness of an `intent` value: `None` and the empty string are
both falsy, so only such an intent makes `_trim_memory` fold the entry into
the summary. -/
def optTruthy (o : Option (List Char)) : Bool :=
  match o with
  | some i => !i.isEmpty
  | none => false

/-!
## Helper lemmas
-/

lemma addIf_nonneg (b : Bool) {k s : Int} (hk : 0 ≤ k) (hs : 0 ≤ s) :
    0 ≤ addIf b k s := by
  unfold addIf
  split_ifs <;> omega

lemma foldl_measure_mono {α β : Type} (m : β → Int) (f : β → α → β) :
    ∀ (l : List α), (∀ x ∈ l, ∀ p, m p ≤ m (f p x)) →
      ∀ init, m init ≤ m (l.foldl f init) := by
  intro l
  induction l with
  | nil => intro _ init; simp
  | cons a t ih =>
    intro h init
    refine le_trans (h a (by simp) init) (ih (fun x hx p => h x (by simp [hx]) p) (f init a))

lemma findSome?_mem {α β : Type} (l : List α) (f : α → Option β) (b : β)
    (h : l.findSome? f = some b) : ∃ a ∈ l, f a = some b := by
  induction l with
  | nil => simp [List.findSome?] at h
  | cons x t ih =>
    rw [List.findSome?] at h
    cases hfx : f x with
    | some v =>
      simp only [hfx] at h
      exact ⟨x, by simp, hfx.trans h⟩
    | none =>
      simp only [hfx] at h
      obtain ⟨a, ha, hfa⟩ := ih h
      exact ⟨a, by simp [ha], hfa⟩

lemma link_level_cases (s : Int) :
    (70 ≤ s → LinkScanner.calculate_risk_level s = "CRITICAL") ∧
    (50 ≤ s → s < 70 → LinkScanner.calculate_risk_level s = "HIGH") ∧
    (30 ≤ s → s < 50 → LinkScanner.calculate_risk_level s = "MEDIUM") ∧
    (0 < s → s < 30 → LinkScanner.calculate_risk_level s = "LOW") ∧
    (s ≤ 0 → LinkScanner.calculate_risk_level s = "SAFE") := by
  unfold LinkScanner.calculate_risk_level
  refine ⟨fun h => ?_, fun h1 h2 => ?_, fun h1 h2 => ?_, fun h1 h2 => ?_, fun h => ?_⟩ <;>
    split_ifs <;> first | rfl | omega

lemma email_level_cases (s : Int) :
    (60 ≤ s → EmailScanner.calculate_risk_level s = "CRITICAL") ∧
    (40 ≤ s → s < 60 → EmailScanner.calculate_risk_level s = "HIGH") ∧
    (20 ≤ s → s < 40 → EmailScanner.calculate_risk_level s = "MEDIUM") ∧
    (0 < s → s < 20 → EmailScanner.calculate_risk_level s = "LOW") ∧
    (s ≤ 0 → EmailScanner.calculate_risk_level s = "SAFE") := by
  unfold EmailScanner.calculate_risk_level
  refine ⟨fun h => ?_, fun h1 h2 => ?_, fun h1 h2 => ?_, fun h1 h2 => ?_, fun h => ?_⟩ <;>
    split_ifs <;> first | rfl | omega

/-- The logs scanner's threshold function is syntactically the link
scanner's. -/
lemma logs_level_eq_link : LogsScanner.calculate_risk_level = LinkScanner.calculate_risk_level :=
  rfl

/-!
## Claim theorems
-/

/-- C2 (counterexample): the spec's cut points (≥70 High/Critical,
40 ≤ score < 70 Medium, < 40 Low/Safe) fail on the code: the link scanner
rates 50 as HIGH and 30 as MEDIUM; the email scanner rates 45 as HIGH and
the logs scanner rates 45 as MEDIUM. -/
theorem c2_spec_cutpoints_fail :
    LinkScanner.calculate_risk_level 50 = "HIGH" ∧
    LinkScanner.calculate_risk_level 30 = "MEDIUM" ∧
    EmailScanner.calculate_risk_level 45 = "HIGH" ∧
    LogsScanner.calculate_risk_level 45 = "MEDIUM" := by
  decide

/-- C2 (amended): each scanner derives the level from the score by a fixed
threshold table, but the cut points are: link and logs scanners
≥70 CRITICAL, ≥50 HIGH, ≥30 MEDIUM, >0 LOW, else SAFE; email scanner
≥60 CRITICAL, ≥40 HIGH, ≥20 MEDIUM, >0 LOW, else SAFE.  Score ≥ 70 does
yield High/Critical in all three. -/
theorem c2_actual_cutpoints (s : Int) :
    (LogsScanner.calculate_risk_level s = LinkScanner.calculate_risk_level s) ∧
    (70 ≤ s → LinkScanner.calculate_risk_level s = "CRITICAL" ∧
              EmailScanner.calculate_risk_level s = "CRITICAL") ∧
    (50 ≤ s → s < 70 → LinkScanner.calculate_risk_level s = "HIGH") ∧
    (30 ≤ s → s < 50 → LinkScanner.calculate_risk_level s = "MEDIUM") ∧
    (0 < s → s < 30 → LinkScanner.calculate_risk_level s = "LOW") ∧
    (s ≤ 0 → LinkScanner.calculate_risk_level s = "SAFE" ∧
             EmailScanner.calculate_risk_level s = "SAFE") ∧
    (60 ≤ s → EmailScanner.calculate_risk_level s = "CRITICAL") ∧
    (40 ≤ s → s < 60 → EmailScanner.calculate_risk_level s = "HIGH") ∧
    (20 ≤ s → s < 40 → EmailScanner.calculate_risk_level s = "MEDIUM") ∧
    (0 < s → s < 20 → EmailScanner.calculate_risk_level s = "LOW") := by
  obtain ⟨l70, l50, l30, l0, lsafe⟩ := link_level_cases s
  obtain ⟨e60, e40, e20, e0, esafe⟩ := email_level_cases s
  exact ⟨congrFun logs_level_eq_link s,
    fun h => ⟨l70 h, e60 (by omega)⟩, l50, l30, l0,
    fun h => ⟨lsafe h, esafe h⟩, e60, e40, e20, e0⟩

/-- C2 (witness for the amended claim at concrete scores). -/
theorem c2_actual_cutpoints_witness :
    LinkScanner.calculate_risk_level 55 = "HIGH" ∧
    EmailScanner.calculate_risk_level 25 = "MEDIUM" := by
  refine ⟨?_, ?_⟩
  · exact (c2_actual_cutpoints 55).2.2.1 (by norm_num) (by norm_num)
  · exact (c2_actual_cutpoints 25).2.2.2.2.2.2.2.2.1 (by norm_num) (by norm_num)

/-- C7: whenever at least one URL token is extracted (after the
false-positive filter), the classifier returns ScanLink with confidence
0.95 and the full extracted URL list, whatever else the message holds. -/
theorem c7_url_presence_scanlink (message : List Char)
    (h : IntentRouter.extract_urls message ≠ []) :
    IntentRouter.detect_intent message =
      { intent := Intent.SCAN_LINK, confidence := 95,
        extracted_data := ExtractedData.urls (IntentRouter.extract_urls message) } := by
  unfold IntentRouter.detect_intent
  rw [if_pos h]

/-- C7 (witness at a concrete message containing a URL). -/
theorem c7_url_presence_scanlink_witness :
    IntentRouter.detect_intent (chars "http://x.io") =
      { intent := Intent.SCAN_LINK, confidence := 95,
        extracted_data := ExtractedData.urls (IntentRouter.extract_urls (chars "http://x.io")) } :=
  c7_url_presence_scanlink (chars "http://x.io") (by decide)

/-- C8 (counterexample): normalization strips only the first recognized
prefix, so two raw ids that differ only by a `telegram_` prefix can map to
different canonical ids when the remainder itself starts with a recognized
prefix. -/
theorem c8_nested_prefix_counterexample :
    MemoryManager.normalize_user_id (chars "telegram_web_42") [] ≠
      MemoryManager.normalize_user_id (chars "web_42") [] := by
  decide

/-- C8 (amended): `normalize("telegram_42") = normalize("web_42") =
normalize("42")`, and in general ids differing only by one recognized
platform prefix map to the same canonical id provided the remainder does
not itself begin with a recognized prefix. -/
theorem c8_normalize_prefix_invariance :
    (MemoryManager.normalize_user_id (chars "telegram_42") [] =
       MemoryManager.normalize_user_id (chars "web_42") [] ∧
     MemoryManager.normalize_user_id (chars "web_42") [] =
       MemoryManager.normalize_user_id (chars "42") []) ∧
    ∀ s pfx : List Char, pfx ∈ MemoryManager.PLATFORM_PREFIXES →
      (∀ q ∈ MemoryManager.PLATFORM_PREFIXES, List.isPrefixOf q s = false) →
      MemoryManager.normalize_user_id (pfx ++ s) [] =
        MemoryManager.normalize_user_id s [] := by
  refine ⟨by decide, ?_⟩
  intro s pfx hp hq
  have hnone : MemoryManager.PLATFORM_PREFIXES.find? (fun p => List.isPrefixOf p s) = none := by
    rw [List.find?_eq_none]
    intro q hqmem
    simp [hq q hqmem]
  simp only [MemoryManager.normalize_user_id, hnone]
  simp only [MemoryManager.PLATFORM_PREFIXES, List.mem_cons, List.not_mem_nil, or_false] at hp
  rcases hp with rfl | rfl | rfl | rfl <;>
    simp [MemoryManager.PLATFORM_PREFIXES, List.find?, chars, List.isPrefixOf]

/-- C8 (witness for the amended claim at a concrete id and prefix). -/
theorem c8_normalize_prefix_invariance_witness :
    MemoryManager.normalize_user_id (chars "telegram_" ++ chars "42") [] =
      MemoryManager.normalize_user_id (chars "42") [] :=
  c8_normalize_prefix_invariance.2 (chars "42") (chars "telegram_")
    (by decide) (by decide)

/-- C9 (counterexample): `"hello"` is classified Greeting, but with
confidence 0.85 (the pattern tier), not 1.0 as the spec states. -/
theorem c9_hello_confidence_not_one :
    (IntentRouter.detect_intent (chars "hello")).intent = Intent.GREETING ∧
    (IntentRouter.detect_intent (chars "hello")).confidence ≠ 100 := by
  decide

/-- C9 (amended): `"hello"` is classified Greeting with confidence 0.85 via
the greeting pattern rule (pattern-tier confidence, empty extracted data),
not via the 0.70 security-keyword fallback. -/
theorem c9_hello_greeting_085 :
    IntentRouter.detect_intent (chars "hello") =
      { intent := Intent.GREETING, confidence := 85,
        extracted_data := ExtractedData.empty } := by
  decide

lemma foldl_snd_nonneg {α β : Type} (f : (β × Int) → α → (β × Int)) (l : List α)
    (h : ∀ x ∈ l, ∀ p, p.2 ≤ (f p x).2) (init : β × Int) (h0 : 0 ≤ init.2) :
    0 ≤ (l.foldl f init).2 :=
  le_trans h0 (foldl_measure_mono Prod.snd f l h init)

lemma email_checks123_nonneg (content : List Char) :
    0 ≤ (EmailScanner.checks123 content).2 := by
  simp only [EmailScanner.checks123]
  apply foldl_snd_nonneg
  · intro x hx p
    dsimp only
    split_ifs <;> simp
  · apply foldl_snd_nonneg
    · intro x hx p
      dsimp only
      split_ifs <;> simp
    · apply foldl_snd_nonneg
      · intro x hx p
        dsimp only
        cases firstMatchSub x (lowerStr content) <;> simp
      · norm_num

/-- One `if matched: signals.append(...); risk_score += k` step never
lowers the accumulated score. -/
lemma step_snd_le (c : Prop) [Decidable c] (p : List String × Int) (a : List String) {k : Int}
    (hk : 0 ≤ k) : p.2 ≤ (if c then (p.1 ++ a, p.2 + k) else p).2 := by
  split_ifs <;> simp
  omega

lemma calc_min100 (s : Int) :
    LinkScanner.calculate_risk_level (min 100 s) = LinkScanner.calculate_risk_level s := by
  rcases le_total s 100 with h | h
  · rw [min_eq_right h]
  · rw [min_eq_left h]
    unfold LinkScanner.calculate_risk_level
    rw [if_pos (show (100:Int) ≥ 70 by norm_num), if_pos (show s ≥ 70 by omega)]

lemma link_s8_nonneg (b1 b2 b3 b4 b5 b6 b7 b8 : Bool) :
    0 ≤ (if b8 then
          max 0 (addIf b7 15 (addIf b6 10 (addIf b5 35 (addIf b4 40 (addIf b3 30
            (addIf b2 25 (addIf b1 15 0)))))) - 30)
         else addIf b7 15 (addIf b6 10 (addIf b5 35 (addIf b4 40 (addIf b3 30
            (addIf b2 25 (addIf b1 15 0))))))) := by
  have h : (0:Int) ≤ addIf b7 15 (addIf b6 10 (addIf b5 35 (addIf b4 40 (addIf b3 30
      (addIf b2 25 (addIf b1 15 0)))))) :=
    addIf_nonneg _ (by norm_num) (addIf_nonneg _ (by norm_num) (addIf_nonneg _ (by norm_num)
      (addIf_nonneg _ (by norm_num) (addIf_nonneg _ (by norm_num)
        (addIf_nonneg _ (by norm_num) (addIf_nonneg _ (by norm_num) le_rfl))))))
  split_ifs
  · exact le_max_left 0 _
  · exact h

lemma threat_scores_nonneg : ∀ pts ∈ LogsScanner.THREAT_PATTERNS, 0 ≤ pts.2.2 := by
  intro pts h
  simp only [LogsScanner.THREAT_PATTERNS, List.mem_cons, List.not_mem_nil, or_false] at h
  rcases h with rfl | rfl | rfl | rfl | rfl | rfl | rfl | rfl | rfl | rfl | rfl | rfl | rfl <;>
    norm_num

lemma scanLine_score_mono (line : List Char) (st : LogsScanner.LoopState) :
    st.score ≤ (LogsScanner.scanLine st line).score := by
  unfold LogsScanner.scanLine
  dsimp only
  refine foldl_measure_mono LogsScanner.LoopState.score _ LogsScanner.THREAT_PATTERNS ?_ st
  intro pts hpts s
  dsimp only
  have hk := threat_scores_nonneg pts hpts
  split_ifs <;>
    first
      | exact le_rfl
      | (show s.score ≤ s.score + pts.2.2
         omega)

lemma logs_lineloop_score_nonneg (logs : List Char) :
    0 ≤ ((splitOnChar '\n' (stripStr logs)).foldl LogsScanner.scanLine
      ⟨[], 0, [], []⟩).score :=
  foldl_measure_mono LogsScanner.LoopState.score LogsScanner.scanLine
    (splitOnChar '\n' (stripStr logs))
    (fun x _ st => scanLine_score_mono x st) ⟨[], 0, [], []⟩

/-- C1: every scanner is a pure function of its input (re-running cannot
change score, level or verdict), its reported `risk_score` lies in
`[0, 100]`, and its `risk_level` is exactly the scanner's fixed threshold
function applied to the reported score. -/
theorem c1_scanner_bounds_purity :
    ∀ u e l : List Char,
      (0 ≤ (LinkScanner.scan u).risk_score ∧ (LinkScanner.scan u).risk_score ≤ 100 ∧
       (LinkScanner.scan u).risk_level =
         LinkScanner.calculate_risk_level (LinkScanner.scan u).risk_score ∧
       ∀ u', u = u' → LinkScanner.scan u' = LinkScanner.scan u) ∧
      (0 ≤ (EmailScanner.scan e).risk_score ∧ (EmailScanner.scan e).risk_score ≤ 100 ∧
       (EmailScanner.scan e).risk_level =
         EmailScanner.calculate_risk_level (EmailScanner.scan e).risk_score ∧
       ∀ e', e = e' → EmailScanner.scan e' = EmailScanner.scan e) ∧
      (0 ≤ (LogsScanner.scan l).risk_score ∧ (LogsScanner.scan l).risk_score ≤ 100 ∧
       (LogsScanner.scan l).risk_level =
         LogsScanner.calculate_risk_level (LogsScanner.scan l).risk_score ∧
       ∀ l', l = l' → LogsScanner.scan l' = LogsScanner.scan l) := by
  intro u e l
  refine ⟨⟨?_, ?_, ?_, ?_⟩, ⟨?_, ?_, ?_, ?_⟩, ⟨?_, ?_, ?_, ?_⟩⟩
  · simp only [LinkScanner.scan]
    by_cases hpr : LinkScanner.parse_raises
      (LinkScanner.netlocOf (LinkScanner.normalizeUrl u)) = true
    · rw [if_pos hpr]
      show (0 : Int) ≤ min 100 20
      norm_num
    · rw [if_neg hpr]
      exact le_min (by norm_num) (link_s8_nonneg _ _ _ _ _ _ _ _)
  · simp only [LinkScanner.scan]
    by_cases hpr : LinkScanner.parse_raises
      (LinkScanner.netlocOf (LinkScanner.normalizeUrl u)) = true
    · rw [if_pos hpr]
      show min (100 : Int) 20 ≤ 100
      norm_num
    · rw [if_neg hpr]
      exact min_le_left _ _
  · simp only [LinkScanner.scan]
    by_cases hpr : LinkScanner.parse_raises
      (LinkScanner.netlocOf (LinkScanner.normalizeUrl u)) = true
    · rw [if_pos hpr]
      show LinkScanner.calculate_risk_level 20 =
        LinkScanner.calculate_risk_level (min 100 20)
      norm_num
    · rw [if_neg hpr]
      exact (calc_min100 _).symm
  · intro u' h
    rw [h]
  · simp only [EmailScanner.scan]
    refine le_min (by norm_num) ?_
    refine le_trans ?_ (step_snd_le _ _ _ (by norm_num))
    refine le_trans ?_ (step_snd_le _ _ _ (by norm_num))
    refine le_trans ?_ (step_snd_le _ _ _ (by norm_num))
    refine le_trans ?_ (step_snd_le _ _ _ (by norm_num))
    refine le_trans ?_ (step_snd_le _ _ _ (by norm_num))
    exact email_checks123_nonneg e
  · simp only [EmailScanner.scan]
    exact min_le_left _ _
  · rfl
  · intro e' h
    rw [h]
  · simp only [LogsScanner.scan]
    refine le_min (by norm_num) ?_
    refine le_trans ?_ (step_snd_le _ _ _ (by norm_num))
    refine le_trans ?_ (step_snd_le _ _ _ (by norm_num))
    exact foldl_snd_nonneg _ _
      (fun x _ p => step_snd_le _ _ _ (by norm_num)) _ (logs_lineloop_score_nonneg l)
  · simp only [LogsScanner.scan]
    exact min_le_left _ _
  · rfl
  · intro l' h
    rw [h]

/-- C1 (witness: the purity conjuncts applied at concrete inputs). -/
theorem c1_scanner_bounds_purity_witness :
    0 ≤ (LinkScanner.scan (chars "x.io")).risk_score ∧
    LinkScanner.scan (chars "x.io") = LinkScanner.scan (chars "x.io") ∧
    EmailScanner.scan (chars "hi") = EmailScanner.scan (chars "hi") ∧
    LogsScanner.scan (chars "ok") = LogsScanner.scan (chars "ok") := by
  obtain ⟨hl, he, hg⟩ := c1_scanner_bounds_purity (chars "x.io") (chars "hi") (chars "ok")
  exact ⟨hl.1, hl.2.2.2 _ rfl, he.2.2.2 _ rfl, hg.2.2.2 _ rfl⟩

lemma kb_responses_ne_empty : ∀ kr ∈ LocalLLM.KNOWLEDGE_BASE, kr.2 ≠ "" := by
  decide

lemma kbLookup_ne_empty {pl : List Char} {r : String}
    (h : LocalLLM.kbLookup pl = some r) : r ≠ "" := by
  unfold LocalLLM.kbLookup at h
  obtain ⟨kr, hmem, hf⟩ := findSome?_mem _ _ _ h
  split_ifs at hf
  injection hf with h2
  exact fun hr => kb_responses_ne_empty kr hmem (h2.trans hr)

/-- The Local knowledge base always answers with non-empty text. -/
lemma local_generate_ne_empty (p : List Char) : LocalLLM.generate p ≠ "" := by
  unfold LocalLLM.generate
  dsimp only
  cases h : LocalLLM.kbLookup (lowerStr p) with
  | some r => exact kbLookup_ne_empty h
  | none =>
    dsimp only
    split_ifs <;> decide

lemma truthy_ne {o : Option String} {s : String} (h : LLMRouter.truthy o = some s) :
    s ≠ "" := by
  unfold LLMRouter.truthy at h
  rcases o with _ | t
  · simp at h
  · dsimp only at h
    split_ifs at h with ht
    injection h with h2
    exact fun hs => ht (h2.trans hs)

lemma tryRemote_ne {r : RemoteLLM} {p : List Char} {s : String}
    (h : LLMRouter.tryRemote r p = some s) : s ≠ "" := by
  unfold LLMRouter.tryRemote at h
  split_ifs at h
  cases hget : r.gen p with
  | error e =>
    rw [hget] at h
    simp at h
  | ok o =>
    rw [hget] at h
    rcases o with _ | t
    · simp at h
    · dsimp only at h
      split_ifs at h with ht
      injection h with h2
      exact fun hs => ht (h2.trans hs)

lemma ite_tryRemote_some {r : RemoteLLM} {p : List Char} {s : String}
    (h : (if r.available then LLMRouter.tryRemote r p else none) = some s) :
    LLMRouter.tryRemote r p = some s := by
  split_ifs at h
  exact h

lemma autoChain_ne_empty (claude gemini : RemoteLLM) (prompt : List Char) :
    LLMRouter.autoChain claude gemini prompt ≠ "" := by
  unfold LLMRouter.autoChain
  cases hc : (if claude.available then LLMRouter.tryRemote claude prompt else none) with
  | some s => exact tryRemote_ne (ite_tryRemote_some hc)
  | none =>
    cases hg : (if gemini.available then LLMRouter.tryRemote gemini prompt else none) with
    | some s => exact tryRemote_ne (ite_tryRemote_some hg)
    | none => exact local_generate_ne_empty prompt

lemma autoChain_local (claude gemini : RemoteLLM) (prompt : List Char)
    (hc : LLMRouter.tryRemote claude prompt = none)
    (hg : LLMRouter.tryRemote gemini prompt = none) :
    LLMRouter.autoChain claude gemini prompt = LocalLLM.generate prompt := by
  unfold LLMRouter.autoChain
  have h1 : (if claude.available then LLMRouter.tryRemote claude prompt else none) = none := by
    split_ifs <;> simp [hc]
  have h2 : (if gemini.available then LLMRouter.tryRemote gemini prompt else none) = none := by
    split_ifs <;> simp [hg]
  rw [h1, h2]

/-- C3: `LLMRouter.generate` never returns the empty string, for any
behaviour of the remote providers (unavailable, raising, returning `None`
or empty) and any preferred-provider setting; and whenever both remote
attempts fail the result is exactly the Local knowledge-base answer.  The
chain is a total function: provider exceptions are consumed inside
`tryRemote`, never re-raised. -/
theorem c3_generate_never_empty (preferred : LLMProvider) (claude gemini : RemoteLLM)
    (prompt : List Char) :
    LLMRouter.generate preferred claude gemini prompt ≠ "" ∧
    (LLMRouter.tryRemote claude prompt = none →
     LLMRouter.tryRemote gemini prompt = none →
     LLMRouter.generate preferred claude gemini prompt = LocalLLM.generate prompt) := by
  have hloc := local_generate_ne_empty prompt
  have htruthy_loc : LLMRouter.truthy (some (LocalLLM.generate prompt)) =
      some (LocalLLM.generate prompt) := by
    unfold LLMRouter.truthy
    dsimp only
    rw [if_neg hloc]
  constructor
  · unfold LLMRouter.generate
    rcases preferred with _ | _ | _ | _ <;> dsimp only
    · cases ht : LLMRouter.truthy (LLMRouter.tryRemote claude prompt) with
      | some s => exact truthy_ne ht
      | none => exact autoChain_ne_empty claude gemini prompt
    · cases ht : LLMRouter.truthy (LLMRouter.tryRemote gemini prompt) with
      | some s => exact truthy_ne ht
      | none => exact autoChain_ne_empty claude gemini prompt
    · rw [htruthy_loc]
      exact hloc
    · exact autoChain_ne_empty claude gemini prompt
  · intro hc hg
    unfold LLMRouter.generate
    rcases preferred with _ | _ | _ | _ <;> dsimp only
    · rw [hc]
      exact autoChain_local claude gemini prompt hc hg
    · rw [hg]
      exact autoChain_local claude gemini prompt hc hg
    · rw [htruthy_loc]
    · exact autoChain_local claude gemini prompt hc hg

/-- C6: an exception raised inside intent classification, context loading
or the routed scan/chat branch is resolved at the orchestrator boundary:
`process_message` (a total function - it never re-raises) returns the fixed
degraded-mode response, with intent Unknown, confidence 0 and the suggested
next actions "Try again" / "Get help"; the store it returns is either
untouched or exactly the one the context-load step wrote (no turn is
appended by the handler). -/
theorem c6_orchestrator_error_boundary (steps : GatewaySteps) (store : MemStore)
    (u m p e : List Char)
    (h : steps.detect m = .error e ∨
      (∃ ir, steps.detect m = .ok ir ∧
        (steps.getContext store u p = .error e ∨
         (∃ st1 ctx, steps.getContext store u p = .ok (st1, ctx) ∧
           steps.route ir m u p ctx = .error e)))) :
    (∃ st1, SentriGateway.process_message steps store u m p =
        (st1, SentriGateway.errorGatewayResponse e) ∧
      (st1 = store ∨ ∃ ctx, steps.getContext store u p = .ok (st1, ctx))) ∧
    (SentriGateway.errorGatewayResponse e).intent = Intent.UNKNOWN ∧
    (SentriGateway.errorGatewayResponse e).confidence = 0 ∧
    (SentriGateway.errorGatewayResponse e).suggested_actions = ["Try again", "Get help"] := by
  refine ⟨?_, rfl, rfl, rfl⟩
  rcases h with hd | ⟨ir, hok, hctx | ⟨st1, ctx, hctxok, hroute⟩⟩
  · exact ⟨store, by simp only [SentriGateway.process_message, hd], Or.inl rfl⟩
  · exact ⟨store, by simp only [SentriGateway.process_message, hok, hctx], Or.inl rfl⟩
  · exact ⟨st1, by simp only [SentriGateway.process_message, hok, hctxok, hroute],
      Or.inr ⟨ctx, hctxok⟩⟩

/-- C6 (witness: a classifier that raises at a concrete message). -/
theorem c6_orchestrator_error_boundary_witness :
    (∃ st1, SentriGateway.process_message
        { detect := fun _ => Except.error (chars "classifier crashed"),
          getContext := fun st _ _ => Except.ok (st, []),
          route := fun _ _ _ _ _ => Except.ok ⟨[], Intent.GENERAL_CHAT, 0, []⟩,
          save := fun st _ _ _ _ _ => Except.ok st,
          format := fun r _ => Except.ok r }
        [] (chars "u1") (chars "hello") (chars "web") =
        (st1, SentriGateway.errorGatewayResponse (chars "classifier crashed")) ∧
      (st1 = ([] : MemStore) ∨ ∃ ctx,
        ({ detect := fun _ => Except.error (chars "classifier crashed"),
           getContext := fun st _ _ => Except.ok (st, []),
           route := fun _ _ _ _ _ => Except.ok ⟨[], Intent.GENERAL_CHAT, 0, []⟩,
           save := fun st _ _ _ _ _ => Except.ok st,
           format := fun r _ => Except.ok r } : GatewaySteps).getContext
          [] (chars "u1") (chars "web") = Except.ok (st1, ctx))) ∧
    (SentriGateway.errorGatewayResponse (chars "classifier crashed")).intent =
      Intent.UNKNOWN ∧
    (SentriGateway.errorGatewayResponse (chars "classifier crashed")).confidence = 0 ∧
    (SentriGateway.errorGatewayResponse (chars "classifier crashed")).suggested_actions =
      ["Try again", "Get help"] :=
  c6_orchestrator_error_boundary _ _ _ _ _ _ (Or.inl rfl)

/-- C5 (counterexample): when the routed handler raises, the orchestrator
returns the degraded response; the store then holds only what the
context-load step wrote (the lazily created empty context for the new
user) - the turn (user message `hi` and the reply) is NOT saved: the
stored entry list is empty, refuting "regardless of failure". -/
theorem c5_exception_skips_save_counterexample :
    ((SentriGateway.process_message
      (SentriGateway.realSteps (fun _ _ _ _ _ => Except.error (chars "handler crashed")))
      [] (chars "u7") (chars "hi") (chars "web")).1 =
      (MemoryManager.load_memory [] (chars "u7") (chars "web")).1) ∧
    (MemoryManager.lookupStore
      (SentriGateway.process_message
        (SentriGateway.realSteps (fun _ _ _ _ _ => Except.error (chars "handler crashed")))
        [] (chars "u7") (chars "hi") (chars "web")).1
      (MemoryManager.normalize_user_id (chars "u7") (chars "web"))).map
      (fun ctx => ctx.entries) = some [] := by
  decide

lemma lookup_cons_ne (hd : List Char × ConversationContext) (tl : MemStore) (k : List Char)
    (h : hd.1 ≠ k) : MemoryManager.lookupStore (hd :: tl) k = MemoryManager.lookupStore tl k := by
  simp [MemoryManager.lookupStore, List.find?, h]

lemma lookupStore_insertStore (st : MemStore) (k : List Char) (v : ConversationContext) :
    MemoryManager.lookupStore (MemoryManager.insertStore st k v) k = some v := by
  induction st with
  | nil => simp [MemoryManager.insertStore, MemoryManager.lookupStore, List.find?]
  | cons hd tl ih =>
    by_cases hh : hd.1 = k
    · have hany : (hd :: tl).any (fun p => p.1 = k) = true := by simp [hh]
      simp only [MemoryManager.insertStore, hany, if_true, List.map_cons]
      simp [MemoryManager.lookupStore, List.find?, hh]
    · by_cases ht : tl.any (fun p => p.1 = k)
      · have hany : (hd :: tl).any (fun p => p.1 = k) = true := by simp [ht]
        simp only [MemoryManager.insertStore, hany, if_true, List.map_cons]
        rw [if_neg hh]
        rw [lookup_cons_ne _ _ _ hh]
        have := ih
        simp only [MemoryManager.insertStore, ht, if_true] at this
        exact this
      · have ht2 : tl.any (fun p => p.1 = k) = false := Bool.eq_false_iff.mpr ht
        have hany : (hd :: tl).any (fun p => p.1 = k) = false := by
          simp [List.any_cons, hh, ht2]
        simp only [MemoryManager.insertStore, hany, Bool.false_eq_true, if_false,
          List.cons_append]
        rw [lookup_cons_ne _ _ _ hh]
        have := ih
        simp only [MemoryManager.insertStore, ht, Bool.false_eq_true, if_false] at this
        exact this

lemma save_memory_lookup (max : Nat) (store : MemStore) (u m r p : List Char)
    (i : Option (List Char)) :
    MemoryManager.lookupStore (MemoryManager.save_memory max store u m r p i)
        (MemoryManager.normalize_user_id u p) =
      some (savedContext max
        (MemoryManager.lookupStore store (MemoryManager.normalize_user_id u p))
        (MemoryManager.normalize_user_id u p) m r p i) := by
  unfold MemoryManager.save_memory MemoryManager.load_memory savedContext
  cases h : MemoryManager.lookupStore store (MemoryManager.normalize_user_id u p) with
  | none =>
    simp only [h]
    exact lookupStore_insertStore _ _ _
  | some ctx =>
    simp only [h]
    exact lookupStore_insertStore _ _ _

lemma drop_append_two (es : List MemoryEntry) (a b : MemoryEntry) (n : Nat)
    (h : n ≤ es.length) :
    ∃ pre, (es ++ [a, b]).drop n = pre ++ [a, b] :=
  ⟨es.drop n, List.drop_append_of_le_length h⟩

lemma savedContext_entries (max : Nat) (oc : Option ConversationContext)
    (nid m r p : List Char) (i : Option (List Char)) (hmax : max = 0 ∨ 2 ≤ max) :
    ∃ pre, (savedContext max oc nid m r p i).entries =
      pre ++ [{ role := "user", content := m, platform := p, intent := i },
              { role := "assistant", content := r, platform := p, intent := i }] := by
  unfold savedContext MemoryManager.trim_memory
  dsimp only
  rcases hmax with rfl | hmax
  · split_ifs <;> first | exact ⟨_, rfl⟩ | (exfalso; omega)
  · split_ifs with h1 h2 h3
    · exact absurd h2 (by omega)
    · dsimp only
      refine drop_append_two _ _ _ _ ?_
      simp only [List.length_append, List.length_cons, List.length_nil]
      omega
    · dsimp only
      refine drop_append_two _ _ _ _ ?_
      simp only [List.length_append, List.length_cons, List.length_nil]
      omega
    · exact ⟨_, rfl⟩

lemma filterMap_ne_nil_of_mem {α β : Type} (l : List α) (f : α → Option β) (x : α)
    (hx : x ∈ l) (b : β) (hfx : f x = some b) : l.filterMap f ≠ [] := by
  induction l with
  | nil => cases hx
  | cons a t ih =>
    rw [List.filterMap_cons]
    cases hfa : f a with
    | some v => simp
    | none =>
      rcases List.mem_cons.mp hx with rfl | hxt
      · rw [hfa] at hfx
        cases hfx
      · exact ih hxt

lemma earlier_ne_nil (parts : List (List Char)) :
    chars "Earlier: " ++ List.intercalate (chars "; ") parts ≠ [] := by
  simp [chars]

lemma optTruthy_eq {o : Option (List Char)} (h : optTruthy o = true) :
    ∃ iv, o = some iv ∧ iv ≠ [] := by
  cases o with
  | none => simp [optTruthy] at h
  | some i =>
    refine ⟨i, rfl, fun hi => ?_⟩
    subst hi
    simp [optTruthy] at h

lemma summaryPart_of_truthy (x : MemoryEntry) (v : List Char)
    (hv : x.intent = some v) (hvne : v ≠ []) :
    MemoryManager.summaryPart x = some (('[' :: v ++ chars "] ") ++ x.content.take 50) := by
  cases v with
  | nil => exact absurd rfl hvne
  | cons a t =>
    simp only [MemoryManager.summaryPart, hv]
    rfl

lemma trim_or_keep_spec (max : Nat) (hmax : 1 ≤ max) (ctx1 : ConversationContext)
    (es : List MemoryEntry) (uE aE : MemoryEntry)
    (he : ctx1.entries = es ++ [uE, aE])
    (hu : optTruthy uE.intent = true) (ha : optTruthy aE.intent = true)
    (hsome : ∀ e ∈ es, optTruthy e.intent = true) (k : Nat)
    (hlen : es.length = min (2 * k) max) :
    ((if ctx1.entries.length > max then MemoryManager.trim_memory max ctx1
      else ctx1).entries.length = min (2 * (k + 1)) max) ∧
    (∀ e ∈ (if ctx1.entries.length > max then MemoryManager.trim_memory max ctx1
      else ctx1).entries, optTruthy e.intent = true) ∧
    (max < 2 * (k + 1) → (if ctx1.entries.length > max then MemoryManager.trim_memory max ctx1
      else ctx1).summary ≠ []) := by
  have hlen1 : ctx1.entries.length = es.length + 2 := by
    rw [he]
    simp
  have hmem : ∀ e ∈ ctx1.entries, optTruthy e.intent = true := by
    intro e hemem
    rw [he] at hemem
    rcases List.mem_append.mp hemem with hL | hR
    · exact hsome e hL
    · rcases List.mem_cons.mp hR with rfl | hR2
      · exact hu
      · rcases List.mem_cons.mp hR2 with rfl | hR3
        · exact ha
        · cases hR3
  by_cases htrim : ctx1.entries.length > max
  · rw [if_pos htrim]
    unfold MemoryManager.trim_memory
    rw [if_neg (show ¬ max = 0 by omega)]
    have hparts : (List.filterMap MemoryManager.summaryPart
        (List.take (ctx1.entries.length - max) ctx1.entries)) ≠ [] := by
      have hpos : 0 < (List.take (ctx1.entries.length - max) ctx1.entries).length := by
        rw [List.length_take]
        omega
      obtain ⟨x, hx⟩ := List.exists_mem_of_length_pos hpos
      have hxsome : optTruthy x.intent = true := hmem x (List.take_subset _ _ hx)
      obtain ⟨v, hv, hvne⟩ := optTruthy_eq hxsome
      exact filterMap_ne_nil_of_mem _ _ x hx _ (summaryPart_of_truthy x v hv hvne)
    rw [if_pos hparts]
    refine ⟨?_, ?_, fun _ => ?_⟩
    · dsimp only
      rw [List.length_drop]
      omega
    · intro e hemem
      dsimp only at hemem
      exact hmem e (List.drop_subset _ _ hemem)
    · dsimp only
      exact earlier_ne_nil _
  · rw [if_neg htrim]
    refine ⟨?_, hmem, fun hlt => ?_⟩
    · omega
    · exfalso
      omega

lemma optTruthy_some_ne {r : String} {c p iv : List Char} (hiv : iv ≠ []) :
    optTruthy (MemoryEntry.intent
      { role := r, content := c, platform := p, intent := some iv }) = true := by
  cases iv with
  | nil => exact absurd rfl hiv
  | cons a t => rfl

lemma savedContext_step (max : Nat) (hmax : 1 ≤ max) (nid m r p iv : List Char)
    (oc : Option ConversationContext) (k : Nat) (hiv : iv ≠ [])
    (hoc : (k = 0 ∧ oc = none) ∨
      (∃ ctx, oc = some ctx ∧ ctx.entries.length = min (2 * k) max ∧
        (∀ e ∈ ctx.entries, optTruthy e.intent = true))) :
    (savedContext max oc nid m r p (some iv)).entries.length = min (2 * (k + 1)) max ∧
    (∀ e ∈ (savedContext max oc nid m r p (some iv)).entries, optTruthy e.intent = true) ∧
    (max < 2 * (k + 1) → (savedContext max oc nid m r p (some iv)).summary ≠ []) := by
  rcases hoc with ⟨rfl, rfl⟩ | ⟨ctx, rfl, hlen, hsome⟩
  · unfold savedContext
    dsimp only
    exact trim_or_keep_spec max hmax
      { user_id := nid,
        entries := [] ++
          [{ role := "user", content := m, platform := p, intent := some iv },
           { role := "assistant", content := r, platform := p, intent := some iv }],
        summary := [], last_intent := some iv, last_platform := p }
      []
      { role := "user", content := m, platform := p, intent := some iv }
      { role := "assistant", content := r, platform := p, intent := some iv }
      rfl (optTruthy_some_ne hiv) (optTruthy_some_ne hiv)
      (fun e he => absurd he (List.not_mem_nil e)) 0 (by simp)
  · unfold savedContext
    dsimp only
    exact trim_or_keep_spec max hmax
      { user_id := ctx.user_id,
        entries := ctx.entries ++
          [{ role := "user", content := m, platform := p, intent := some iv },
           { role := "assistant", content := r, platform := p, intent := some iv }],
        summary := ctx.summary, last_intent := some iv, last_platform := p }
      ctx.entries
      { role := "user", content := m, platform := p, intent := some iv }
      { role := "assistant", content := r, platform := p, intent := some iv }
      rfl (optTruthy_some_ne hiv) (optTruthy_some_ne hiv) hsome k hlen

lemma normalize_platform_irrelevant (u p q : List Char) :
    MemoryManager.normalize_user_id u p = MemoryManager.normalize_user_id u q := rfl

lemma saveTurns_invariant (max : Nat) (hmax : 1 ≤ max) (u : List Char) :
    ∀ (turns : List (List Char × List Char × List Char × Option (List Char)))
      (store : MemStore) (k : Nat),
      (∀ t ∈ turns, optTruthy t.2.2.2 = true) →
      ((k = 0 ∧ MemoryManager.lookupStore store (MemoryManager.normalize_user_id u []) = none) ∨
       (∃ ctx, MemoryManager.lookupStore store (MemoryManager.normalize_user_id u []) = some ctx ∧
         ctx.entries.length = min (2 * k) max ∧
         (∀ e ∈ ctx.entries, optTruthy e.intent = true) ∧
         (max < 2 * k → ctx.summary ≠ []))) →
      ((k + turns.length = 0 ∧ MemoryManager.lookupStore (saveTurns max u turns store)
          (MemoryManager.normalize_user_id u []) = none) ∨
       (∃ ctx, MemoryManager.lookupStore (saveTurns max u turns store)
           (MemoryManager.normalize_user_id u []) = some ctx ∧
         ctx.entries.length = min (2 * (k + turns.length)) max ∧
         (∀ e ∈ ctx.entries, optTruthy e.intent = true) ∧
         (max < 2 * (k + turns.length) → ctx.summary ≠ []))) := by
  intro turns
  induction turns with
  | nil =>
    intro store k _ hInv
    simpa [saveTurns] using hInv
  | cons t rest ih =>
    intro store k hall hInv
    have hstep : saveTurns max u (t :: rest) store =
        saveTurns max u rest
          (MemoryManager.save_memory max store u t.1 t.2.1 t.2.2.1 t.2.2.2) := rfl
    obtain ⟨iv, hiv, hivne⟩ := optTruthy_eq (hall t (by simp))
    have hlook : MemoryManager.lookupStore
        (MemoryManager.save_memory max store u t.1 t.2.1 t.2.2.1 t.2.2.2)
        (MemoryManager.normalize_user_id u []) =
        some (savedContext max
          (MemoryManager.lookupStore store (MemoryManager.normalize_user_id u t.2.2.1))
          (MemoryManager.normalize_user_id u t.2.2.1) t.1 t.2.1 t.2.2.1 t.2.2.2) := by
      rw [normalize_platform_irrelevant u [] t.2.2.1]
      exact save_memory_lookup max store u t.1 t.2.1 t.2.2.1 t.2.2.2
    have hInv2 : (k + 1 = 0 ∧ MemoryManager.lookupStore
          (MemoryManager.save_memory max store u t.1 t.2.1 t.2.2.1 t.2.2.2)
          (MemoryManager.normalize_user_id u []) = none) ∨
        (∃ ctx, MemoryManager.lookupStore
            (MemoryManager.save_memory max store u t.1 t.2.1 t.2.2.1 t.2.2.2)
            (MemoryManager.normalize_user_id u []) = some ctx ∧
          ctx.entries.length = min (2 * (k + 1)) max ∧
          (∀ e ∈ ctx.entries, optTruthy e.intent = true) ∧
          (max < 2 * (k + 1) → ctx.summary ≠ [])) := by
      right
      refine ⟨_, hlook, ?_⟩
      rw [hiv]
      refine savedContext_step max hmax _ _ _ _ _ _ k hivne ?_
      rw [← normalize_platform_irrelevant u [] t.2.2.1]
      rcases hInv with ⟨hk0, hnone⟩ | ⟨ctx, hl, hlen, hsm, _⟩
      · exact Or.inl ⟨hk0, hnone⟩
      · exact Or.inr ⟨ctx, hl, hlen, hsm⟩
    have := ih (MemoryManager.save_memory max store u t.1 t.2.1 t.2.2.1 t.2.2.2)
      (k + 1) (fun x hx => hall x (by simp [hx])) hInv2
    rw [hstep]
    rw [show k + (t :: rest).length = (k + 1) + rest.length by simp; omega]
    exact this

/-- C4 (amended): after more turns than `max_entries`, all saved with a
truthy intent (neither `None` nor the empty string), the stored context
keeps exactly `max_entries` entries and a non-empty summary. -/
theorem c4_trim_keeps_max_and_summarizes (max : Nat) (u : List Char)
    (turns : List (List Char × List Char × List Char × Option (List Char)))
    (hmax : 1 ≤ max) (hn : max < turns.length)
    (hint : ∀ t ∈ turns, optTruthy t.2.2.2 = true) :
    ∃ ctx, MemoryManager.lookupStore (saveTurns max u turns [])
        (MemoryManager.normalize_user_id u []) = some ctx ∧
      ctx.entries.length = max ∧ ctx.summary ≠ [] := by
  have hInv := saveTurns_invariant max hmax u turns [] 0 hint (Or.inl ⟨rfl, rfl⟩)
  rcases hInv with ⟨hk, _⟩ | ⟨ctx, hl, hlen, _, hsum⟩
  · omega
  · refine ⟨ctx, hl, ?_, hsum (by omega)⟩
    rw [hlen]
    omega

/-- C5 (amended): when the routing step succeeds (no step raises), the
orchestrator does save the turn: the returned store is exactly
`save_memory` - applied on top of the store the context-load step wrote -
with the user message and the produced reply text, and the stored context
for the user ends with the user/assistant entry pair. -/
theorem c5_route_ok_saves_turn
    (route : IntentResult → List Char → List Char → List Char → List Char →
      Except (List Char) FormattedResponse)
    (store : MemStore) (u m p : List Char) (resp : FormattedResponse)
    (h : route (IntentRouter.detect_intent m) m u p
      (MemoryManager.get_context_string store u p 3) = .ok resp) :
    (SentriGateway.process_message (SentriGateway.realSteps route) store u m p).1 =
      MemoryManager.save_memory 20 (MemoryManager.load_memory store u p).1 u m resp.text p
        (some (chars (IntentRouter.detect_intent m).intent.value)) ∧
    ∃ ctx pre,
      MemoryManager.lookupStore
        (SentriGateway.process_message (SentriGateway.realSteps route) store u m p).1
        (MemoryManager.normalize_user_id u p) = some ctx ∧
      ctx.entries = pre ++
        [{ role := "user", content := m, platform := p,
           intent := some (chars (IntentRouter.detect_intent m).intent.value) },
         { role := "assistant", content := resp.text, platform := p,
           intent := some (chars (IntentRouter.detect_intent m).intent.value) }] := by
  have hstore : (SentriGateway.process_message (SentriGateway.realSteps route) store u m p).1 =
      MemoryManager.save_memory 20 (MemoryManager.load_memory store u p).1 u m resp.text p
        (some (chars (IntentRouter.detect_intent m).intent.value)) := by
    simp only [SentriGateway.process_message, SentriGateway.realSteps, h]
  refine ⟨hstore, ?_⟩
  rw [hstore, save_memory_lookup]
  obtain ⟨pre, hpre⟩ := savedContext_entries 20
    (MemoryManager.lookupStore (MemoryManager.load_memory store u p).1
      (MemoryManager.normalize_user_id u p))
    (MemoryManager.normalize_user_id u p) m resp.text p
    (some (chars (IntentRouter.detect_intent m).intent.value)) (Or.inr (by norm_num))
  exact ⟨_, pre, rfl, hpre⟩

/-- Witness for C5 at a concrete always-succeeding route. -/
theorem c5_route_ok_saves_turn_witness :
    (SentriGateway.process_message
      (SentriGateway.realSteps (fun _ _ _ _ _ => Except.ok
        { text := chars "all good", intent := Intent.GENERAL_CHAT, confidence := 70,
          suggested_actions := [] }))
      [] (chars "u1") (chars "thanks") (chars "web")).1 =
      MemoryManager.save_memory 20
        (MemoryManager.load_memory [] (chars "u1") (chars "web")).1
        (chars "u1") (chars "thanks") (chars "all good") (chars "web")
        (some (chars (IntentRouter.detect_intent (chars "thanks")).intent.value)) ∧
    ∃ ctx pre,
      MemoryManager.lookupStore
        (SentriGateway.process_message
          (SentriGateway.realSteps (fun _ _ _ _ _ => Except.ok
            { text := chars "all good", intent := Intent.GENERAL_CHAT, confidence := 70,
              suggested_actions := [] }))
          [] (chars "u1") (chars "thanks") (chars "web")).1
        (MemoryManager.normalize_user_id (chars "u1") (chars "web")) = some ctx ∧
      ctx.entries = pre ++
        [{ role := "user", content := chars "thanks", platform := chars "web",
           intent := some (chars (IntentRouter.detect_intent (chars "thanks")).intent.value) },
         { role := "assistant", content := chars "all good", platform := chars "web",
           intent := some (chars (IntentRouter.detect_intent (chars "thanks")).intent.value) }] :=
  c5_route_ok_saves_turn _ [] (chars "u1") (chars "thanks") (chars "web")
    { text := chars "all good", intent := Intent.GENERAL_CHAT, confidence := 70,
      suggested_actions := [] } rfl

/-- C4 counterexample: 21 turns saved with `intent = None` under
`max_entries = 20` leave the stored context with 20 entries but an empty
summary - the trimmed entry is dropped without being summarized, because
`_trim_memory` only folds entries that carry an intent into the summary. -/
theorem c4_intentless_turns_no_summary_counterexample :
    (MemoryManager.lookupStore
        (saveTurns 20 (chars "u7")
          (List.replicate 21 (chars "m", chars "r", chars "web", (none : Option (List Char))))
          [])
        (MemoryManager.normalize_user_id (chars "u7") (chars "web"))).map
      (fun ctx => (ctx.entries.length, ctx.summary)) = some (20, []) := by
  set_option maxRecDepth 4000 in decide

/-- Witness for the amended C4 theorem: three intent-carrying turns with
`max_entries = 2`. -/
theorem c4_trim_keeps_max_and_summarizes_witness :
    ∃ ctx, MemoryManager.lookupStore
        (saveTurns 2 (chars "u7")
          (List.replicate 3 (chars "hi", chars "ok", chars "web", some (chars "general_chat")))
          [])
        (MemoryManager.normalize_user_id (chars "u7") []) = some ctx ∧
      ctx.entries.length = 2 ∧ ctx.summary ≠ [] :=
  c4_trim_keeps_max_and_summarizes 2 (chars "u7")
    (List.replicate 3 (chars "hi", chars "ok", chars "web", some (chars "general_chat")))
    (by norm_num) (by norm_num) (by decide)

/-- Witness for C3 with both remote providers dead. -/
theorem c3_generate_never_empty_witness :
    LLMRouter.generate LLMProvider.AUTO
        { available := false, gen := fun _ => Except.error "down" }
        { available := false, gen := fun _ => Except.error "down" }
        (chars "what is phishing") ≠ "" ∧
    (LLMRouter.tryRemote { available := false, gen := fun _ => Except.error "down" }
        (chars "what is phishing") = none →
     LLMRouter.tryRemote { available := false, gen := fun _ => Except.error "down" }
        (chars "what is phishing") = none →
     LLMRouter.generate LLMProvider.AUTO
        { available := false, gen := fun _ => Except.error "down" }
        { available := false, gen := fun _ => Except.error "down" }
        (chars "what is phishing") = LocalLLM.generate (chars "what is phishing")) :=
  c3_generate_never_empty LLMProvider.AUTO
    { available := false, gen := fun _ => Except.error "down" }
    { available := false, gen := fun _ => Except.error "down" }
    (chars "what is phishing")
